import Mathlib

/-!
RigidBodyNode: a verification development.

Shallow embedding of `src/src/RigidBodyNode.h` (the abstract rigid body tree
node of Simbody) and proofs about its topology setters, its per-body cache
accessors, its base-class default methods and its construction-time constants.

Conventions of the embedding.

* Scalars (`Real` in the source) are elements of an arbitrary commutative ring
  `R`: every statement is about exact arithmetic.
* A `RigidBodyNode*` is a `Ptr`: `none` is the null pointer and `some a` is the
  address `a` of a node in a `Heap`, the store of all node objects.
* `int` members are modelled by `Int`; the source only stores and compares them.
* An indexing `x[nodeNum]` that falls outside its container has no defined
  result in the source; it is modelled by `none`.
* A `throw` is modelled by `Except.error`; a method that takes output
  arguments by reference returns their final values next to its outcome.
-/

namespace Simbody

/-! ## Spatial algebra types used by the node -/

/-- Modelled from the spec: the SimTK type `Vec3`, whose declaration is not part
of the sources; a triple of scalars. -/
@[ext]
structure Vec3 (R : Type) where
  x : R
  y : R
  z : R
deriving DecidableEq

/-- Modelled from the spec: the 3x3 direction cosine matrix of a `Transform`
(declaration not part of the sources), stored row by row. -/
@[ext]
structure Mat33 (R : Type) where
  xx : R
  xy : R
  xz : R
  yx : R
  yy : R
  yz : R
  zx : R
  zy : R
  zz : R
deriving DecidableEq

namespace Vec3
variable {R : Type} [CommRing R]

/-- Componentwise sum of two vectors. -/
def add (a b : Vec3 R) : Vec3 R := ⟨a.x + b.x, a.y + b.y, a.z + b.z⟩

/-- Componentwise negation. -/
def neg (a : Vec3 R) : Vec3 R := ⟨-a.x, -a.y, -a.z⟩

/-- The zero vector. -/
def zero : Vec3 R := ⟨0, 0, 0⟩

end Vec3

namespace Mat33
variable {R : Type} [CommRing R]

/-- The identity matrix. -/
def one : Mat33 R := ⟨1, 0, 0, 0, 1, 0, 0, 0, 1⟩

/-- Matrix product. -/
def mul (a b : Mat33 R) : Mat33 R :=
  ⟨a.xx * b.xx + a.xy * b.yx + a.xz * b.zx,
   a.xx * b.xy + a.xy * b.yy + a.xz * b.zy,
   a.xx * b.xz + a.xy * b.yz + a.xz * b.zz,
   a.yx * b.xx + a.yy * b.yx + a.yz * b.zx,
   a.yx * b.xy + a.yy * b.yy + a.yz * b.zy,
   a.yx * b.xz + a.yy * b.yz + a.yz * b.zz,
   a.zx * b.xx + a.zy * b.yx + a.zz * b.zx,
   a.zx * b.xy + a.zy * b.yy + a.zz * b.zy,
   a.zx * b.xz + a.zy * b.yz + a.zz * b.zz⟩

/-- Transpose, written `~R` in the source. -/
def transpose (a : Mat33 R) : Mat33 R :=
  ⟨a.xx, a.yx, a.zx, a.xy, a.yy, a.zy, a.xz, a.yz, a.zz⟩

/-- Matrix applied to a vector. -/
def mulVec (a : Mat33 R) (v : Vec3 R) : Vec3 R :=
  ⟨a.xx * v.x + a.xy * v.y + a.xz * v.z,
   a.yx * v.x + a.yy * v.y + a.yz * v.z,
   a.zx * v.x + a.zy * v.y + a.zz * v.z⟩

/-- A direction cosine matrix is orthogonal: `R * ~R = I` (class comment of the
source: "these are orthogonal matrices so R_XY*R_YX=I"). -/
def IsOrthogonal (a : Mat33 R) : Prop := a.mul a.transpose = one

instance [DecidableEq R] (a : Mat33 R) : Decidable a.IsOrthogonal :=
  inferInstanceAs (Decidable (a.mul a.transpose = one))

/-- The same matrix as a matrix of the library. -/
def toMatrix (a : Mat33 R) : Matrix (Fin 3) (Fin 3) R :=
  !![a.xx, a.xy, a.xz; a.yx, a.yy, a.yz; a.zx, a.zy, a.zz]

end Mat33

/-- Modelled from the spec: the SimTK type `Transform` (declaration not part of
the sources), a rigid transform: a rotation `R` and a translation `T`. -/
@[ext]
structure Transform (K : Type) where
  R : Mat33 K
  T : Vec3 K
deriving DecidableEq

namespace Transform
variable {R : Type} [CommRing R]

/-- The identity transform. -/
def identity : Transform R := ⟨Mat33.one, Vec3.zero⟩

/-- Modelled from the spec: composition `X_AB * X_BC` of rigid transforms
(operator not part of the sources): rotations multiply and the second
translation is re-expressed in the first frame. -/
def compose (a b : Transform R) : Transform R :=
  ⟨a.R.mul b.R, a.T.add (a.R.mulVec b.T)⟩

/-- Modelled from the spec: the inverse `~X` of a rigid transform (operator not
part of the sources): "rotation transpose, adjusted translation". -/
def invert (a : Transform R) : Transform R :=
  ⟨a.R.transpose, (a.R.transpose.mulVec a.T).neg⟩

end Transform

/-- Modelled from the spec: `InertiaMat` (declaration not part of the sources),
an inertia tensor. -/
structure InertiaMat (R : Type) where
  m : Mat33 R
deriving DecidableEq

/-- Modelled from the spec: `MassProperties` (declaration not part of the
sources): "mass, center of mass, inertia tensor about the body origin". -/
structure MassProperties (R : Type) where
  mass : R
  com : Vec3 R
  inertia : InertiaMat R
deriving DecidableEq

namespace MassProperties
variable {R : Type}

/-- Accessor `MassProperties::getMass`. -/
def getMass (m : MassProperties R) : R := m.mass

/-- Accessor `MassProperties::getCOM`. -/
def getCOM (m : MassProperties R) : Vec3 R := m.com

/-- Accessor `MassProperties::getInertia`. -/
def getInertia (m : MassProperties R) : InertiaMat R := m.inertia

end MassProperties

/-! ## The node -/

/-- A `RigidBodyNode*`: `none` is the null pointer. -/
abbrev Ptr := Option Nat

/-- The data members of `RigidBodyNode` (lines 457-495 of the header). -/
structure RigidBodyNode (R : Type) where
  uIndex : Int
  qIndex : Int
  uSqIndex : Int
  parent : Ptr
  children : List Ptr
  level : Int
  nodeNum : Int
  massProps_B : MassProperties R
  inertia_CB_B : InertiaMat R
  X_BJ : Transform R
  X_JB : Transform R
  X_PJb : Transform R
  refX_PB : Transform R
deriving DecidableEq

namespace RigidBodyNode
variable {R : Type}

/-- The protected constructor `RigidBodyNode(mProps_B, xform_PJb, xform_BJ)`.
`calcCentroidalInertia` is the method of `MassProperties` of that name, whose
definition is not part of the sources; it is taken as a parameter. -/
def construct [CommRing R] (calcCentroidalInertia : MassProperties R → InertiaMat R)
    (mProps_B : MassProperties R) (xform_PJb xform_BJ : Transform R) : RigidBodyNode R where
  uIndex := -1
  qIndex := -1
  uSqIndex := -1
  parent := none
  children := []
  level := -1
  nodeNum := -1
  massProps_B := mProps_B
  inertia_CB_B := calcCentroidalInertia mProps_B
  X_BJ := xform_BJ
  X_PJb := xform_PJb
  refX_PB := xform_PJb.compose xform_BJ.invert
  X_JB := xform_BJ.invert

/-- Source: `void setParent(RigidBodyNode* p) {parent=p;}`. -/
def setParent (n : RigidBodyNode R) (p : Ptr) : RigidBodyNode R := { n with parent := p }

/-- Source: `void setNodeNum(int n) {nodeNum=n;}`. -/
def setNodeNum (n : RigidBodyNode R) (k : Int) : RigidBodyNode R := { n with nodeNum := k }

/-- Source: `void setLevel(int i) {level=i;}`. -/
def setLevel (n : RigidBodyNode R) (i : Int) : RigidBodyNode R := { n with level := i }

/-- Modelled from the spec: `void addChild(RigidBodyNode* child)`, declared in
the header ("Register the passed-in node as a child of this one") and defined
outside the sources; the child is appended to the ordered list of children. -/
def addChild (n : RigidBodyNode R) (child : Ptr) : RigidBodyNode R :=
  { n with children := n.children ++ [child] }

/-- Source: `RigidBodyNode* getParent() const {return parent;}`. -/
def getParent (n : RigidBodyNode R) : Ptr := n.parent

/-- Source: `int getNChildren() const {return (int)children.size();}`. The
number of children is taken to fit an `int`. -/
def getNChildren (n : RigidBodyNode R) : Int := (n.children.length : Int)

/-- Source: `RigidBodyNode* getChild(int i) const
{return (i<(int)children.size()?children[i]:0);}`. The outer `Option` is `none`
when `children[i]` is evaluated outside the list. -/
def getChild (n : RigidBodyNode R) (i : Int) : Option Ptr :=
  if i < (n.children.length : Int) then
    (if 0 ≤ i then n.children[i.toNat]? else none)
  else some none

/-- Source: `int getLevel() const {return level;}`. -/
def getLevel (n : RigidBodyNode R) : Int := n.level

/-- Source: `int getNodeNum() const {return nodeNum;}`. -/
def getNodeNum (n : RigidBodyNode R) : Int := n.nodeNum

/-- Source: `bool isGroundNode() const { return level==0; }`. -/
def isGroundNode (n : RigidBodyNode R) : Bool := n.level == 0

/-- Source: `bool isBaseNode() const { return level==1; }`. -/
def isBaseNode (n : RigidBodyNode R) : Bool := n.level == 1

/-- Source: `int getUIndex() const {return uIndex;}`. -/
def getUIndex (n : RigidBodyNode R) : Int := n.uIndex

/-- Source: `int getQIndex() const {return qIndex;}`. -/
def getQIndex (n : RigidBodyNode R) : Int := n.qIndex

/-- Source: `const MassProperties& getMassProperties() const {return massProps_B;}`. -/
def getMassProperties (n : RigidBodyNode R) : MassProperties R := n.massProps_B

/-- Source: `const Real& getMass() const {return massProps_B.getMass();}`. -/
def getMass (n : RigidBodyNode R) : R := n.massProps_B.getMass

/-- Source: `const Vec3& getCOM_B() const {return massProps_B.getCOM();}`. -/
def getCOM_B (n : RigidBodyNode R) : Vec3 R := n.massProps_B.getCOM

/-- Source: `const InertiaMat& getInertia_OB_B() const {return massProps_B.getInertia();}`. -/
def getInertia_OB_B (n : RigidBodyNode R) : InertiaMat R := n.massProps_B.getInertia

/-- Source: `const Transform& getX_BJ() const {return X_BJ;}`. -/
def getX_BJ (n : RigidBodyNode R) : Transform R := n.X_BJ

/-- Source: `const Transform& getX_PJb() const {return X_PJb;}`. -/
def getX_PJb (n : RigidBodyNode R) : Transform R := n.X_PJb

/-- Source: `const InertiaMat& getInertia_CB_B() const {return inertia_CB_B;}`. -/
def getInertia_CB_B (n : RigidBodyNode R) : InertiaMat R := n.inertia_CB_B

/-- Source: `const Transform& getX_JB() const {return X_JB;}`. -/
def getX_JB (n : RigidBodyNode R) : Transform R := n.X_JB

/-- Source: `const Transform& getRefX_PB() const {return refX_PB;}`. -/
def getRefX_PB (n : RigidBodyNode R) : Transform R := n.refX_PB

/-- The body-in-parent transform for an across-joint transform `X_JbJ`, as the
class comment gives it: "we can easily calculate X_PB as
X_PB = X_PJb*X_JbJ*X_JB". -/
def calcX_PB [CommRing R] (n : RigidBodyNode R) (X_JbJ : Transform R) : Transform R :=
  (n.getX_PJb.compose X_JbJ).compose n.getX_JB

end RigidBodyNode

/-! ## The store of node objects -/

/-- The node objects of a tree, addressed by position. -/
abbrev Heap (R : Type) := List (RigidBodyNode R)

namespace Heap
variable {R : Type}

/-- Call a member function that mutates the object at address `a`; there is no
result when `a` is not the address of a node. -/
def call (h : Heap R) (a : Nat) (f : RigidBodyNode R → RigidBodyNode R) : Option (Heap R) :=
  match h[a]? with
  | some n => some (h.set a (f n))
  | none => none

/-- The call `a->setParent(p)`. -/
def setParent (h : Heap R) (a : Nat) (p : Ptr) : Option (Heap R) :=
  h.call a (fun n => n.setParent p)

/-- The call `a->setNodeNum(k)`. -/
def setNodeNum (h : Heap R) (a : Nat) (k : Int) : Option (Heap R) :=
  h.call a (fun n => n.setNodeNum k)

/-- The call `a->setLevel(i)`. -/
def setLevel (h : Heap R) (a : Nat) (i : Int) : Option (Heap R) :=
  h.call a (fun n => n.setLevel i)

/-- The call `a->addChild(child)`. -/
def addChild (h : Heap R) (a : Nat) (child : Ptr) : Option (Heap R) :=
  h.call a (fun n => n.addChild child)

/-- The call `p->addChild(c)` followed by the call `c->setParent(p)`: the two
calls that link the node at `c` under the node at `p`. -/
def link (h : Heap R) (p c : Nat) : Option (Heap R) :=
  (h.addChild p (some c)).bind (fun h1 => h1.setParent c (some p))

/-- A node object `c` that is not yet part of the tree joins it under the node
at address `p`: the calls `c->setLevel(p->getLevel() + 1); c->setParent(p);`
on the object, which then takes the next free address of the store, followed
by `p->addChild(c)`. There is no result when `p` is not the address of a node. -/
def attach (h : Heap R) (c : RigidBodyNode R) (p : Nat) : Option (Heap R) :=
  match h[p]? with
  | some pn =>
    (h ++ [(c.setLevel (pn.getLevel + 1)).setParent (some p)]).addChild p (some h.length)
  | none => none

end Heap

/-! ## The per-body pools of the state caches -/

/-- Modelled from the spec: `SpatialVec` (declaration not part of the sources):
an angular part, at index 0, and a linear part, at index 1. -/
structure SpatialVec (R : Type) where
  angular : Vec3 R
  linear : Vec3 R
deriving DecidableEq

/-- Modelled from the spec: `SpatialMat` (declaration not part of the sources):
a 2x2 arrangement of 3x3 blocks. -/
structure SpatialMat (R : Type) where
  m00 : Mat33 R
  m01 : Mat33 R
  m10 : Mat33 R
  m11 : Mat33 R
deriving DecidableEq

/-- Modelled from the spec: `PhiMatrix` (declaration not part of the sources):
the shift operator between adjacent body frames, given by the offset vector. -/
structure PhiMatrix (R : Type) where
  l : Vec3 R
deriving DecidableEq

/-- Modelled from the spec: `SBModelingVars` (declared in `SimbodyTreeState.h`,
not part of the sources), with the two members the node reads. -/
structure SBModelingVars where
  useEulerAngles : Bool
  prescribed : List Bool
deriving DecidableEq

/-- Modelled from the spec: `SBConfigurationCache` (declared in `SimbodyTreeState.h`, not
part of the sources), with the per-body pools the node accessors name. -/
structure SBConfigurationCache (R : Type) where
  bodyJointInParentJointFrame : List (Transform R)
  bodyConfigInParent : List (Transform R)
  bodyConfigInGround : List (Transform R)
  bodyToParentShift : List (PhiMatrix R)
  bodySpatialInertia : List (SpatialMat R)
  bodyCOMInGround : List (Vec3 R)
  bodyCOMStationInGround : List (Vec3 R)
  bodyInertiaInGround : List (InertiaMat R)
deriving DecidableEq

/-- Every per-body pool of the configuration cache has length `k`. -/
def SBConfigurationCache.Sized {R : Type} (cc : SBConfigurationCache R) (k : Nat) : Prop :=
  cc.bodyJointInParentJointFrame.length = k ∧
  cc.bodyConfigInParent.length = k ∧
  cc.bodyConfigInGround.length = k ∧
  cc.bodyToParentShift.length = k ∧
  cc.bodySpatialInertia.length = k ∧
  cc.bodyCOMInGround.length = k ∧
  cc.bodyCOMStationInGround.length = k ∧
  cc.bodyInertiaInGround.length = k

/-- Modelled from the spec: `SBMotionCache` (declared in `SimbodyTreeState.h`, not
part of the sources), with the per-body pools the node accessors name. -/
structure SBMotionCache (R : Type) where
  mobilizerRelativeVelocity : List (SpatialVec R)
  bodyVelocityInGround : List (SpatialVec R)
  bodyVelocityInParent : List (SpatialVec R)
deriving DecidableEq

/-- Every per-body pool of the motion cache has length `k`. -/
def SBMotionCache.Sized {R : Type} (mc : SBMotionCache R) (k : Nat) : Prop :=
  mc.mobilizerRelativeVelocity.length = k ∧
  mc.bodyVelocityInGround.length = k ∧
  mc.bodyVelocityInParent.length = k

/-- Modelled from the spec: `SBDynamicsCache` (declared in `SimbodyTreeState.h`, not
part of the sources), with the per-body pools the node accessors name. -/
structure SBDynamicsCache (R : Type) where
  appliedRigidBodyForces : List (SpatialVec R)
  articulatedBodyInertia : List (SpatialMat R)
  coriolisAcceleration : List (SpatialVec R)
  gyroscopicForces : List (SpatialVec R)
  centrifugalForces : List (SpatialVec R)
  psi : List (SpatialMat R)
  tauBar : List (SpatialMat R)
  Y : List (SpatialMat R)
deriving DecidableEq

/-- Every per-body pool of the dynamics cache has length `k`. -/
def SBDynamicsCache.Sized {R : Type} (dc : SBDynamicsCache R) (k : Nat) : Prop :=
  dc.appliedRigidBodyForces.length = k ∧
  dc.articulatedBodyInertia.length = k ∧
  dc.coriolisAcceleration.length = k ∧
  dc.gyroscopicForces.length = k ∧
  dc.centrifugalForces.length = k ∧
  dc.psi.length = k ∧
  dc.tauBar.length = k ∧
  dc.Y.length = k

/-- Modelled from the spec: `SBReactionCache` (declared in `SimbodyTreeState.h`, not
part of the sources), with the per-body pools the node accessors name. -/
structure SBReactionCache (R : Type) where
  bodyAccelerationInGround : List (SpatialVec R)
  z : List (SpatialVec R)
  Gepsilon : List (SpatialVec R)
deriving DecidableEq

/-- Every per-body pool of the reaction cache has length `k`. -/
def SBReactionCache.Sized {R : Type} (rc : SBReactionCache R) (k : Nat) : Prop :=
  rc.bodyAccelerationInGround.length = k ∧
  rc.z.length = k ∧
  rc.Gepsilon.length = k

namespace RigidBodyNode
variable {R : Type} {α : Type}

/-- The overloads `fromB(x) const {return x[nodeNum];}` (lines 101-111), one
for each container and element type; there is no result when the index falls
outside the pool. -/
def fromB (n : RigidBodyNode R) (x : List α) : Option α :=
  if 0 ≤ n.nodeNum then x[n.nodeNum.toNat]? else none

/-- The overloads `toB(x) const {return x[nodeNum];}` (lines 113-123), which
return a reference into the pool; storing `v` through that reference gives the
new pool, and there is no result when the index falls outside the pool. -/
def toB (n : RigidBodyNode R) (x : List α) (v : α) : Option (List α) :=
  if 0 ≤ n.nodeNum ∧ n.nodeNum.toNat < x.length then some (x.set n.nodeNum.toNat v) else none

/-- Source: `const bool getUseEulerAngles(const SBModelingVars& mv) const`. -/
def getUseEulerAngles (_n : RigidBodyNode R) (mv : SBModelingVars) : Bool := mv.useEulerAngles

/-- The node number is a position of a pool of length `len`:
`0 <= nodeNum < len`. -/
def InRange (n : RigidBodyNode R) (len : Nat) : Prop :=
  0 ≤ n.getNodeNum ∧ n.getNodeNum < (len : Int)

/-- Source: `getX_JbJ(cc) const {return fromB(cc.bodyJointInParentJointFrame);}`. -/
def getX_JbJ (n : RigidBodyNode R) (cc : SBConfigurationCache R) : Option (Transform R) :=
  n.fromB cc.bodyJointInParentJointFrame

/-- Source: `updX_JbJ(cc) const {return toB(cc.bodyJointInParentJointFrame);}`, followed by
a store of `v` through the returned reference. -/
def updX_JbJ (n : RigidBodyNode R) (cc : SBConfigurationCache R) (v : Transform R) : Option (SBConfigurationCache R) :=
  (n.toB cc.bodyJointInParentJointFrame v).map (fun x => { cc with bodyJointInParentJointFrame := x })

/-- Source: `getX_PB(cc) const {return fromB(cc.bodyConfigInParent);}`. -/
def getX_PB (n : RigidBodyNode R) (cc : SBConfigurationCache R) : Option (Transform R) :=
  n.fromB cc.bodyConfigInParent

/-- Source: `updX_PB(cc) const {return toB(cc.bodyConfigInParent);}`, followed by
a store of `v` through the returned reference. -/
def updX_PB (n : RigidBodyNode R) (cc : SBConfigurationCache R) (v : Transform R) : Option (SBConfigurationCache R) :=
  (n.toB cc.bodyConfigInParent v).map (fun x => { cc with bodyConfigInParent := x })

/-- Source: `getX_GB(cc) const {return fromB(cc.bodyConfigInGround);}`. -/
def getX_GB (n : RigidBodyNode R) (cc : SBConfigurationCache R) : Option (Transform R) :=
  n.fromB cc.bodyConfigInGround

/-- Source: `updX_GB(cc) const {return toB(cc.bodyConfigInGround);}`, followed by
a store of `v` through the returned reference. -/
def updX_GB (n : RigidBodyNode R) (cc : SBConfigurationCache R) (v : Transform R) : Option (SBConfigurationCache R) :=
  (n.toB cc.bodyConfigInGround v).map (fun x => { cc with bodyConfigInGround := x })

/-- Source: `getPhi(cc) const {return fromB(cc.bodyToParentShift);}`. -/
def getPhi (n : RigidBodyNode R) (cc : SBConfigurationCache R) : Option (PhiMatrix R) :=
  n.fromB cc.bodyToParentShift

/-- Source: `updPhi(cc) const {return toB(cc.bodyToParentShift);}`, followed by
a store of `v` through the returned reference. -/
def updPhi (n : RigidBodyNode R) (cc : SBConfigurationCache R) (v : PhiMatrix R) : Option (SBConfigurationCache R) :=
  (n.toB cc.bodyToParentShift v).map (fun x => { cc with bodyToParentShift := x })

/-- Source: `getMk(cc) const {return fromB(cc.bodySpatialInertia);}`. -/
def getMk (n : RigidBodyNode R) (cc : SBConfigurationCache R) : Option (SpatialMat R) :=
  n.fromB cc.bodySpatialInertia

/-- Source: `updMk(cc) const {return toB(cc.bodySpatialInertia);}`, followed by
a store of `v` through the returned reference. -/
def updMk (n : RigidBodyNode R) (cc : SBConfigurationCache R) (v : SpatialMat R) : Option (SBConfigurationCache R) :=
  (n.toB cc.bodySpatialInertia v).map (fun x => { cc with bodySpatialInertia := x })

/-- Source: `getCOM_G(cc) const {return fromB(cc.bodyCOMInGround);}`. -/
def getCOM_G (n : RigidBodyNode R) (cc : SBConfigurationCache R) : Option (Vec3 R) :=
  n.fromB cc.bodyCOMInGround

/-- Source: `updCOM_G(cc) const {return toB(cc.bodyCOMInGround);}`, followed by
a store of `v` through the returned reference. -/
def updCOM_G (n : RigidBodyNode R) (cc : SBConfigurationCache R) (v : Vec3 R) : Option (SBConfigurationCache R) :=
  (n.toB cc.bodyCOMInGround v).map (fun x => { cc with bodyCOMInGround := x })

/-- Source: `getCB_G(cc) const {return fromB(cc.bodyCOMStationInGround);}`. -/
def getCB_G (n : RigidBodyNode R) (cc : SBConfigurationCache R) : Option (Vec3 R) :=
  n.fromB cc.bodyCOMStationInGround

/-- Source: `updCB_G(cc) const {return toB(cc.bodyCOMStationInGround);}`, followed by
a store of `v` through the returned reference. -/
def updCB_G (n : RigidBodyNode R) (cc : SBConfigurationCache R) (v : Vec3 R) : Option (SBConfigurationCache R) :=
  (n.toB cc.bodyCOMStationInGround v).map (fun x => { cc with bodyCOMStationInGround := x })

/-- Source: `getInertia_OB_G(cc) const {return fromB(cc.bodyInertiaInGround);}`. -/
def getInertia_OB_G (n : RigidBodyNode R) (cc : SBConfigurationCache R) : Option (InertiaMat R) :=
  n.fromB cc.bodyInertiaInGround

/-- Source: `updInertia_OB_G(cc) const {return toB(cc.bodyInertiaInGround);}`, followed by
a store of `v` through the returned reference. -/
def updInertia_OB_G (n : RigidBodyNode R) (cc : SBConfigurationCache R) (v : InertiaMat R) : Option (SBConfigurationCache R) :=
  (n.toB cc.bodyInertiaInGround v).map (fun x => { cc with bodyInertiaInGround := x })

/-- Source: `getV_JbJ(mc) const {return fromB(mc.mobilizerRelativeVelocity);}`. -/
def getV_JbJ (n : RigidBodyNode R) (mc : SBMotionCache R) : Option (SpatialVec R) :=
  n.fromB mc.mobilizerRelativeVelocity

/-- Source: `updV_JbJ(mc) const {return toB(mc.mobilizerRelativeVelocity);}`, followed by
a store of `v` through the returned reference. -/
def updV_JbJ (n : RigidBodyNode R) (mc : SBMotionCache R) (v : SpatialVec R) : Option (SBMotionCache R) :=
  (n.toB mc.mobilizerRelativeVelocity v).map (fun x => { mc with mobilizerRelativeVelocity := x })

/-- Source: `getV_GB(mc) const {return fromB(mc.bodyVelocityInGround);}`. -/
def getV_GB (n : RigidBodyNode R) (mc : SBMotionCache R) : Option (SpatialVec R) :=
  n.fromB mc.bodyVelocityInGround

/-- Source: `updV_GB(mc) const {return toB(mc.bodyVelocityInGround);}`, followed by
a store of `v` through the returned reference. -/
def updV_GB (n : RigidBodyNode R) (mc : SBMotionCache R) (v : SpatialVec R) : Option (SBMotionCache R) :=
  (n.toB mc.bodyVelocityInGround v).map (fun x => { mc with bodyVelocityInGround := x })

/-- Source: `getV_PB_G(mc) const {return fromB(mc.bodyVelocityInParent);}`. -/
def getV_PB_G (n : RigidBodyNode R) (mc : SBMotionCache R) : Option (SpatialVec R) :=
  n.fromB mc.bodyVelocityInParent

/-- Source: `updV_PB_G(mc) const {return toB(mc.bodyVelocityInParent);}`, followed by
a store of `v` through the returned reference. -/
def updV_PB_G (n : RigidBodyNode R) (mc : SBMotionCache R) (v : SpatialVec R) : Option (SBMotionCache R) :=
  (n.toB mc.bodyVelocityInParent v).map (fun x => { mc with bodyVelocityInParent := x })

/-- Source: `getBodyForce(dc) const {return fromB(dc.appliedRigidBodyForces);}`. -/
def getBodyForce (n : RigidBodyNode R) (dc : SBDynamicsCache R) : Option (SpatialVec R) :=
  n.fromB dc.appliedRigidBodyForces

/-- Source: `getP(dc) const {return fromB(dc.articulatedBodyInertia);}`. -/
def getP (n : RigidBodyNode R) (dc : SBDynamicsCache R) : Option (SpatialMat R) :=
  n.fromB dc.articulatedBodyInertia

/-- Source: `updP(dc) const {return toB(dc.articulatedBodyInertia);}`, followed by
a store of `v` through the returned reference. -/
def updP (n : RigidBodyNode R) (dc : SBDynamicsCache R) (v : SpatialMat R) : Option (SBDynamicsCache R) :=
  (n.toB dc.articulatedBodyInertia v).map (fun x => { dc with articulatedBodyInertia := x })

/-- Source: `getCoriolisAcceleration(dc) const {return fromB(dc.coriolisAcceleration);}`. -/
def getCoriolisAcceleration (n : RigidBodyNode R) (dc : SBDynamicsCache R) : Option (SpatialVec R) :=
  n.fromB dc.coriolisAcceleration

/-- Source: `updCoriolisAcceleration(dc) const {return toB(dc.coriolisAcceleration);}`, followed by
a store of `v` through the returned reference. -/
def updCoriolisAcceleration (n : RigidBodyNode R) (dc : SBDynamicsCache R) (v : SpatialVec R) : Option (SBDynamicsCache R) :=
  (n.toB dc.coriolisAcceleration v).map (fun x => { dc with coriolisAcceleration := x })

/-- Source: `getGyroscopicForce(dc) const {return fromB(dc.gyroscopicForces);}`. -/
def getGyroscopicForce (n : RigidBodyNode R) (dc : SBDynamicsCache R) : Option (SpatialVec R) :=
  n.fromB dc.gyroscopicForces

/-- Source: `updGyroscopicForce(dc) const {return toB(dc.gyroscopicForces);}`, followed by
a store of `v` through the returned reference. -/
def updGyroscopicForce (n : RigidBodyNode R) (dc : SBDynamicsCache R) (v : SpatialVec R) : Option (SBDynamicsCache R) :=
  (n.toB dc.gyroscopicForces v).map (fun x => { dc with gyroscopicForces := x })

/-- Source: `getCentrifugalForces(dc) const {return fromB(dc.centrifugalForces);}`. -/
def getCentrifugalForces (n : RigidBodyNode R) (dc : SBDynamicsCache R) : Option (SpatialVec R) :=
  n.fromB dc.centrifugalForces

/-- Source: `updCentrifugalForces(dc) const {return toB(dc.centrifugalForces);}`, followed by
a store of `v` through the returned reference. -/
def updCentrifugalForces (n : RigidBodyNode R) (dc : SBDynamicsCache R) (v : SpatialVec R) : Option (SBDynamicsCache R) :=
  (n.toB dc.centrifugalForces v).map (fun x => { dc with centrifugalForces := x })

/-- Source: `getPsi(dc) const {return fromB(dc.psi);}`. -/
def getPsi (n : RigidBodyNode R) (dc : SBDynamicsCache R) : Option (SpatialMat R) :=
  n.fromB dc.psi

/-- Source: `updPsi(dc) const {return toB(dc.psi);}`, followed by
a store of `v` through the returned reference. -/
def updPsi (n : RigidBodyNode R) (dc : SBDynamicsCache R) (v : SpatialMat R) : Option (SBDynamicsCache R) :=
  (n.toB dc.psi v).map (fun x => { dc with psi := x })

/-- Source: `getTauBar(dc) const {return fromB(dc.tauBar);}`. -/
def getTauBar (n : RigidBodyNode R) (dc : SBDynamicsCache R) : Option (SpatialMat R) :=
  n.fromB dc.tauBar

/-- Source: `updTauBar(dc) const {return toB(dc.tauBar);}`, followed by
a store of `v` through the returned reference. -/
def updTauBar (n : RigidBodyNode R) (dc : SBDynamicsCache R) (v : SpatialMat R) : Option (SBDynamicsCache R) :=
  (n.toB dc.tauBar v).map (fun x => { dc with tauBar := x })

/-- Source: `getY(dc) const {return fromB(dc.Y);}`. -/
def getY (n : RigidBodyNode R) (dc : SBDynamicsCache R) : Option (SpatialMat R) :=
  n.fromB dc.Y

/-- Source: `updY(dc) const {return toB(dc.Y);}`, followed by
a store of `v` through the returned reference. -/
def updY (n : RigidBodyNode R) (dc : SBDynamicsCache R) (v : SpatialMat R) : Option (SBDynamicsCache R) :=
  (n.toB dc.Y v).map (fun x => { dc with Y := x })

/-- Source: `getA_GB(rc) const {return fromB(rc.bodyAccelerationInGround);}`. -/
def getA_GB (n : RigidBodyNode R) (rc : SBReactionCache R) : Option (SpatialVec R) :=
  n.fromB rc.bodyAccelerationInGround

/-- Source: `updA_GB(rc) const {return toB(rc.bodyAccelerationInGround);}`, followed by
a store of `v` through the returned reference. -/
def updA_GB (n : RigidBodyNode R) (rc : SBReactionCache R) (v : SpatialVec R) : Option (SBReactionCache R) :=
  (n.toB rc.bodyAccelerationInGround v).map (fun x => { rc with bodyAccelerationInGround := x })

/-- Source: `getZ(rc) const {return fromB(rc.z);}`. -/
def getZ (n : RigidBodyNode R) (rc : SBReactionCache R) : Option (SpatialVec R) :=
  n.fromB rc.z

/-- Source: `updZ(rc) const {return toB(rc.z);}`, followed by
a store of `v` through the returned reference. -/
def updZ (n : RigidBodyNode R) (rc : SBReactionCache R) (v : SpatialVec R) : Option (SBReactionCache R) :=
  (n.toB rc.z v).map (fun x => { rc with z := x })

/-- Source: `getGepsilon(rc) const {return fromB(rc.Gepsilon);}`. -/
def getGepsilon (n : RigidBodyNode R) (rc : SBReactionCache R) : Option (SpatialVec R) :=
  n.fromB rc.Gepsilon

/-- Source: `updGepsilon(rc) const {return toB(rc.Gepsilon);}`, followed by
a store of `v` through the returned reference. -/
def updGepsilon (n : RigidBodyNode R) (rc : SBReactionCache R) (v : SpatialVec R) : Option (SBReactionCache R) :=
  (n.toB rc.Gepsilon v).map (fun x => { rc with Gepsilon := x })

/-- Source: `getSpatialVel(mc) const {return getV_GB(mc);}`. -/
def getSpatialVel (n : RigidBodyNode R) (mc : SBMotionCache R) : Option (SpatialVec R) :=
  n.getV_GB mc

/-- Source: `getSpatialAngVel(mc) const {return getV_GB(mc)[0];}`. -/
def getSpatialAngVel (n : RigidBodyNode R) (mc : SBMotionCache R) : Option (Vec3 R) :=
  (n.getV_GB mc).map (fun v => v.angular)

/-- Source: `getSpatialLinVel(mc) const {return getV_GB(mc)[1];}`. -/
def getSpatialLinVel (n : RigidBodyNode R) (mc : SBMotionCache R) : Option (Vec3 R) :=
  (n.getV_GB mc).map (fun v => v.linear)

/-- Source: `getSpatialAcc(rc) const {return getA_GB(rc);}`. -/
def getSpatialAcc (n : RigidBodyNode R) (rc : SBReactionCache R) : Option (SpatialVec R) :=
  n.getA_GB rc

/-- Source: `getSpatialAngAcc(rc) const {return getA_GB(rc)[0];}`. -/
def getSpatialAngAcc (n : RigidBodyNode R) (rc : SBReactionCache R) : Option (Vec3 R) :=
  (n.getA_GB rc).map (fun v => v.angular)

/-- Source: `getSpatialLinAcc(rc) const {return getA_GB(rc)[1];}`. -/
def getSpatialLinAcc (n : RigidBodyNode R) (rc : SBReactionCache R) : Option (Vec3 R) :=
  (n.getA_GB rc).map (fun v => v.linear)

end RigidBodyNode

/-- The `get` accessors of the configuration cache that read the slot of the
node itself (the eight defined by `fromB`) return for node `b` the same value
on `cc` and on `cc'`. The accessor `getX_GP`, which reads the slot of the
parent of `b`, is not one of them. -/
def SameOwnConfigurationReads {R : Type} (b : RigidBodyNode R) (cc cc' : SBConfigurationCache R) : Prop :=
  b.getX_JbJ cc' = b.getX_JbJ cc ∧
  b.getX_PB cc' = b.getX_PB cc ∧
  b.getX_GB cc' = b.getX_GB cc ∧
  b.getPhi cc' = b.getPhi cc ∧
  b.getMk cc' = b.getMk cc ∧
  b.getCOM_G cc' = b.getCOM_G cc ∧
  b.getCB_G cc' = b.getCB_G cc ∧
  b.getInertia_OB_G cc' = b.getInertia_OB_G cc

/-- Every `get` accessor of the motion cache returns for node `b` the same
value on `mc` and on `mc'`; each of them reads the slot of `b` itself. -/
def SameMotionReads {R : Type} (b : RigidBodyNode R) (mc mc' : SBMotionCache R) : Prop :=
  b.getV_JbJ mc' = b.getV_JbJ mc ∧
  b.getV_GB mc' = b.getV_GB mc ∧
  b.getV_PB_G mc' = b.getV_PB_G mc ∧
  b.getSpatialVel mc' = b.getSpatialVel mc ∧
  b.getSpatialAngVel mc' = b.getSpatialAngVel mc ∧
  b.getSpatialLinVel mc' = b.getSpatialLinVel mc

/-- Every `get` accessor of the dynamics cache returns for node `b` the same
value on `dc` and on `dc'`; each of them reads the slot of `b` itself. -/
def SameDynamicsReads {R : Type} (b : RigidBodyNode R) (dc dc' : SBDynamicsCache R) : Prop :=
  b.getBodyForce dc' = b.getBodyForce dc ∧
  b.getP dc' = b.getP dc ∧
  b.getCoriolisAcceleration dc' = b.getCoriolisAcceleration dc ∧
  b.getGyroscopicForce dc' = b.getGyroscopicForce dc ∧
  b.getCentrifugalForces dc' = b.getCentrifugalForces dc ∧
  b.getPsi dc' = b.getPsi dc ∧
  b.getTauBar dc' = b.getTauBar dc ∧
  b.getY dc' = b.getY dc

/-- Every `get` accessor of the reaction cache returns for node `b` the same
value on `rc` and on `rc'`; each of them reads the slot of `b` itself. -/
def SameReactionReads {R : Type} (b : RigidBodyNode R) (rc rc' : SBReactionCache R) : Prop :=
  b.getA_GB rc' = b.getA_GB rc ∧
  b.getZ rc' = b.getZ rc ∧
  b.getGepsilon rc' = b.getGepsilon rc ∧
  b.getSpatialAcc rc' = b.getSpatialAcc rc ∧
  b.getSpatialAngAcc rc' = b.getSpatialAngAcc rc ∧
  b.getSpatialLinAcc rc' = b.getSpatialLinAcc rc

/-! ## Base-class default methods -/

/-- Source: `class VirtualBaseMethod {};    // an exception`. -/
inductive VirtualBaseMethod where
  | mk : VirtualBaseMethod
deriving DecidableEq

/-- Modelled from the spec: `SpatialRow` (declaration not part of the sources):
a row of two 3-vectors; the rows of `H` are "packed like SpatialRow". -/
structure SpatialRow (R : Type) where
  r0 : Vec3 R
  r1 : Vec3 R
deriving DecidableEq

namespace RigidBodyNode
variable {R : Type}

/-- The base-class body of `calcZ`: `{ throw VirtualBaseMethod(); }`. The
result pairs the outcome with the final value of the output argument
`rc`. -/
def calcZ (_n : RigidBodyNode R) (_cc : SBConfigurationCache R) (_dc : SBDynamicsCache R) (_spatialForce : SpatialVec R) (rc : SBReactionCache R) :
    Except VirtualBaseMethod Unit × SBReactionCache R :=
  (Except.error VirtualBaseMethod.mk, rc)

/-- The base-class body of `calcYOutward`: `{ throw VirtualBaseMethod(); }`. The
result pairs the outcome with the final value of the output argument
`dc`. -/
def calcYOutward (_n : RigidBodyNode R) (_cc : SBConfigurationCache R) (dc : SBDynamicsCache R) :
    Except VirtualBaseMethod Unit × SBDynamicsCache R :=
  (Except.error VirtualBaseMethod.mk, dc)

/-- The base-class body of `calcAccel`: `{ throw VirtualBaseMethod(); }`. The
result pairs the outcome with the final value of the output arguments
`rc`, `udot`, `qdotdot`. -/
def calcAccel (_n : RigidBodyNode R) (_mv : SBModelingVars) (_q : List R) (_cc : SBConfigurationCache R) (_u : List R) (_dc : SBDynamicsCache R) (rc : SBReactionCache R) (udot : List R) (qdotdot : List R) :
    Except VirtualBaseMethod Unit × (SBReactionCache R × List R × List R) :=
  (Except.error VirtualBaseMethod.mk, (rc, udot, qdotdot))

/-- The base-class body of `calcInternalGradientFromSpatial`: `{ throw VirtualBaseMethod(); }`. The
result pairs the outcome with the final value of the output arguments
`zTmp`, `JX`. -/
def calcInternalGradientFromSpatial (_n : RigidBodyNode R) (_cc : SBConfigurationCache R) (zTmp : List (SpatialVec R)) (_X : List (SpatialVec R)) (JX : List R) :
    Except VirtualBaseMethod Unit × (List (SpatialVec R) × List R) :=
  (Except.error VirtualBaseMethod.mk, (zTmp, JX))

/-- The base-class body of `calcEquivalentJointForces`: `{ throw VirtualBaseMethod(); }`. The
result pairs the outcome with the final value of the output arguments
`allZ`, `allGepsilon`, `jointForces`. -/
def calcEquivalentJointForces (_n : RigidBodyNode R) (_cc : SBConfigurationCache R) (_dc : SBDynamicsCache R) (_bodyForces : List (SpatialVec R)) (allZ : List (SpatialVec R)) (allGepsilon : List (SpatialVec R)) (jointForces : List R) :
    Except VirtualBaseMethod Unit × (List (SpatialVec R) × List (SpatialVec R) × List R) :=
  (Except.error VirtualBaseMethod.mk, (allZ, allGepsilon, jointForces))

/-- The base-class body of `calcUDotPass1Inward`: `{ throw VirtualBaseMethod(); }`. The
result pairs the outcome with the final value of the output arguments
`allZ`, `allGepsilon`, `allEpsilon`. -/
def calcUDotPass1Inward (_n : RigidBodyNode R) (_cc : SBConfigurationCache R) (_dc : SBDynamicsCache R) (_jointForces : List R) (_bodyForces : List (SpatialVec R)) (allZ : List (SpatialVec R)) (allGepsilon : List (SpatialVec R)) (allEpsilon : List R) :
    Except VirtualBaseMethod Unit × (List (SpatialVec R) × List (SpatialVec R) × List R) :=
  (Except.error VirtualBaseMethod.mk, (allZ, allGepsilon, allEpsilon))

/-- The base-class body of `calcUDotPass2Outward`: `{ throw VirtualBaseMethod(); }`. The
result pairs the outcome with the final value of the output arguments
`allA_GB`, `allUDot`. -/
def calcUDotPass2Outward (_n : RigidBodyNode R) (_cc : SBConfigurationCache R) (_dc : SBDynamicsCache R) (_epsilonTmp : List R) (allA_GB : List (SpatialVec R)) (allUDot : List R) :
    Except VirtualBaseMethod Unit × (List (SpatialVec R) × List R) :=
  (Except.error VirtualBaseMethod.mk, (allA_GB, allUDot))

/-- The base-class body of `calcQDot`: `{ throw VirtualBaseMethod(); }`. The
result pairs the outcome with the final value of the output argument
`qdot`. -/
def calcQDot (_n : RigidBodyNode R) (_mv : SBModelingVars) (_q : List R) (_cc : SBConfigurationCache R) (_u : List R) (qdot : List R) :
    Except VirtualBaseMethod Unit × List R :=
  (Except.error VirtualBaseMethod.mk, qdot)

/-- The base-class body of `calcQDotDot`: `{ throw VirtualBaseMethod(); }`. The
result pairs the outcome with the final value of the output argument
`qdotdot`. -/
def calcQDotDot (_n : RigidBodyNode R) (_mv : SBModelingVars) (_q : List R) (_cc : SBConfigurationCache R) (_u : List R) (_udot : List R) (qdotdot : List R) :
    Except VirtualBaseMethod Unit × List R :=
  (Except.error VirtualBaseMethod.mk, qdotdot)

/-- The base-class body of `setVelFromSVel`: `{ throw VirtualBaseMethod(); }`. The
result pairs the outcome with the final value of the output argument
`u`. -/
def setVelFromSVel (_n : RigidBodyNode R) (_cc : SBConfigurationCache R) (_mc : SBMotionCache R) (_sVel : SpatialVec R) (u : List R) :
    Except VirtualBaseMethod Unit × List R :=
  (Except.error VirtualBaseMethod.mk, u)

/-- The base-class body of `setQ`: `{ throw VirtualBaseMethod(); }`. The
result pairs the outcome with the final value of the output argument
`q`. -/
def setQ (_n : RigidBodyNode R) (_mv : SBModelingVars) (_qIn : List R) (q : List R) :
    Except VirtualBaseMethod Unit × List R :=
  (Except.error VirtualBaseMethod.mk, q)

/-- The base-class body of `setU`: `{ throw VirtualBaseMethod(); }`. The
result pairs the outcome with the final value of the output argument
`u`. -/
def setU (_n : RigidBodyNode R) (_mv : SBModelingVars) (_uIn : List R) (u : List R) :
    Except VirtualBaseMethod Unit × List R :=
  (Except.error VirtualBaseMethod.mk, u)

/-- The base-class body of `getInternalForce`: `{ throw VirtualBaseMethod(); }`. The
result pairs the outcome with the final value of the output argument
`tau`. -/
def getInternalForce (_n : RigidBodyNode R) (_rc : SBReactionCache R) (tau : List R) :
    Except VirtualBaseMethod Unit × List R :=
  (Except.error VirtualBaseMethod.mk, tau)

/-- The base-class body of `getHRow`: `{throw VirtualBaseMethod();}`; it has no
output argument. -/
def getHRow (_n : RigidBodyNode R) (_cc : SBConfigurationCache R) (_i : Int) :
    Except VirtualBaseMethod (SpatialRow R) :=
  Except.error VirtualBaseMethod.mk

/-- The base-class body of `setMobilizerConfiguration(mv, X_JbJ, q)`: `{}`. The
result pairs the outcome with the final value of `q`. -/
def setMobilizerConfiguration (_n : RigidBodyNode R) (_mv : SBModelingVars)
    (_X_JbJ : Transform R) (q : List R) : Except VirtualBaseMethod Unit × List R :=
  (Except.ok (), q)

/-- The base-class body of `setMobilizerVelocity(mv, V_JbJ, u)`: `{}`. The
result pairs the outcome with the final value of `u`. -/
def setMobilizerVelocity (_n : RigidBodyNode R) (_mv : SBModelingVars)
    (_V_JbJ : SpatialVec R) (u : List R) : Except VirtualBaseMethod Unit × List R :=
  (Except.ok (), u)

end RigidBodyNode

/-! ## Default-value hooks -/

namespace RigidBodyNode
variable {R : Type}

/-- The base-class body of
`setDefaultModelingValues(const SBConstructionCache&, SBModelingVars&)`: `{}`.
`SBConstructionCache` (declared in `SimbodyTreeState.h`, not part of the
sources) is a type parameter. The result pairs the outcome with the final
value of the variables passed by reference. -/
def setDefaultModelingValues {ConstructionCache : Type} (_n : RigidBodyNode R)
    (_c : ConstructionCache) (mv : SBModelingVars) :
    Except VirtualBaseMethod Unit × SBModelingVars :=
  (Except.ok (), mv)

/-- The base-class body of
`setDefaultParameterValues(const SBModelingVars&, SBParameterVars&)`: `{}`.
`SBParameterVars` (not part of the sources) is a type parameter. -/
def setDefaultParameterValues {ParameterVars : Type} (_n : RigidBodyNode R)
    (_mv : SBModelingVars) (pv : ParameterVars) :
    Except VirtualBaseMethod Unit × ParameterVars :=
  (Except.ok (), pv)

/-- The base-class body of
`setDefaultTimeValues(const SBModelingVars&, SBTimeVars&)`: `{}`. `SBTimeVars`
(not part of the sources) is a type parameter. -/
def setDefaultTimeValues {TimeVars : Type} (_n : RigidBodyNode R)
    (_mv : SBModelingVars) (tv : TimeVars) :
    Except VirtualBaseMethod Unit × TimeVars :=
  (Except.ok (), tv)

/-- The base-class body of
`setDefaultConfigurationValues(const SBModelingVars&, Vector& q)`: `{}`. -/
def setDefaultConfigurationValues (_n : RigidBodyNode R)
    (_mv : SBModelingVars) (q : List R) : Except VirtualBaseMethod Unit × List R :=
  (Except.ok (), q)

/-- The base-class body of
`setDefaultMotionValues(const SBModelingVars&, Vector& u)`: `{}`. -/
def setDefaultMotionValues (_n : RigidBodyNode R)
    (_mv : SBModelingVars) (u : List R) : Except VirtualBaseMethod Unit × List R :=
  (Except.ok (), u)

/-- The base-class body of
`setDefaultDynamicsValues(const SBModelingVars&, SBDynamicsVars&)`: `{}`.
`SBDynamicsVars` (not part of the sources) is a type parameter. -/
def setDefaultDynamicsValues {DynamicsVars : Type} (_n : RigidBodyNode R)
    (_mv : SBModelingVars) (dv : DynamicsVars) :
    Except VirtualBaseMethod Unit × DynamicsVars :=
  (Except.ok (), dv)

/-- The base-class body of
`setDefaultReactionValues(const SBModelingVars&, SBReactionVars&)`: `{}`.
`SBReactionVars` (not part of the sources) is a type parameter. -/
def setDefaultReactionValues {ReactionVars : Type} (_n : RigidBodyNode R)
    (_mv : SBModelingVars) (rv : ReactionVars) :
    Except VirtualBaseMethod Unit × ReactionVars :=
  (Except.ok (), rv)

end RigidBodyNode

/-! ## The parent's configuration -/

/-- The outcome of an `assert` whose condition is false. -/
inductive AssertionFailed where
  | mk : AssertionFailed
deriving DecidableEq

/-- Source: `const Transform& getX_GP(const SBConfigurationCache& cc) const
{assert(parent); return parent->getX_GB(cc);}`. The assertion is compiled in.
The parent pointer is dereferenced in the store `h`; the inner `Option` is
`none` when the pointer is not the address of a node or when the parent
indexes outside the pool. -/
def RigidBodyNode.getX_GP {R : Type} (n : RigidBodyNode R) (h : Heap R)
    (cc : SBConfigurationCache R) : Except AssertionFailed (Option (Transform R)) :=
  match n.parent with
  | none => Except.error AssertionFailed.mk
  | some p =>
    match h[p]? with
    | some pn => Except.ok (pn.getX_GB cc)
    | none => Except.ok none

/-! ## The factory -/

/-- A node of a concrete joint type: the base-class members together with the
values its concrete type returns from the pure virtual `getDOF()` ("number of
independent dofs") and `getMaxNQ()` ("dofs plus quaternion constraints"). -/
structure ConcreteNode (R : Type) where
  base : RigidBodyNode R
  dof : Nat
  maxNQ : Nat
deriving DecidableEq

/-- The arguments of one call of the factory, counters apart. -/
structure CreateArgs (R : Type) (J : Type) where
  m : MassProperties R
  X_PJb : Transform R
  X_BJ : Transform R
  type : J
  isReversed : Bool

section Factory
variable {R : Type} {J : Type}

/-- The virtual `getDOF()` of a concrete node. -/
def ConcreteNode.getDOF (c : ConcreteNode R) : Int := (c.dof : Int)

/-- The virtual `getMaxNQ()` of a concrete node. -/
def ConcreteNode.getMaxNQ (c : ConcreteNode R) : Int := (c.maxNQ : Int)

/-- Position `k` lies in `[getQIndex(), getQIndex() + coordinate count)`. -/
def ConcreteNode.InQRange (c : ConcreteNode R) (k : Int) : Prop :=
  c.base.getQIndex ≤ k ∧ k < c.base.getQIndex + c.getMaxNQ

/-- Position `k` lies in `[getUIndex(), getUIndex() + getDOF())`. -/
def ConcreteNode.InURange (c : ConcreteNode R) (k : Int) : Prop :=
  c.base.getUIndex ≤ k ∧ k < c.base.getUIndex + c.getDOF

/-- Modelled from the spec: the factory `create` (declared at lines 65-73 of the
header, defined outside the sources): "a factory selects the concrete
joint-model variant from a joint-type tag and allocates the next free
coordinate/speed indices". The joint-type tag `J` and the freedom and
coordinate counts of each joint type (`Mobilizer::MobilizerType`, not part of
the sources) are parameters. The node receives the current counters as its
`uIndex`, `uSqIndex` and `qIndex`, and the counters advance by the freedom
count, its square, and the coordinate count. The result is the node and the
final `nxtU`, `nxtUSq`, `nxtQ`. -/
def create [CommRing R] (degreesOfFreedom numCoordinates : J → Nat)
    (calcCentroidalInertia : MassProperties R → InertiaMat R)
    (m : MassProperties R) (X_PJb X_BJ : Transform R) (type : J) (_isReversed : Bool)
    (nxtU nxtUSq nxtQ : Int) : ConcreteNode R × Int × Int × Int :=
  ({ base := { RigidBodyNode.construct calcCentroidalInertia m X_PJb X_BJ with
                uIndex := nxtU, uSqIndex := nxtUSq, qIndex := nxtQ }
     dof := degreesOfFreedom type
     maxNQ := numCoordinates type },
   nxtU + (degreesOfFreedom type : Int),
   nxtUSq + (degreesOfFreedom type : Int) * (degreesOfFreedom type : Int),
   nxtQ + (numCoordinates type : Int))

/-- A sequence of calls of the factory that threads the counters: the created
nodes, in order of creation, and the final `nxtU`, `nxtUSq`, `nxtQ`. -/
def createAll [CommRing R] (degreesOfFreedom numCoordinates : J → Nat)
    (calcCentroidalInertia : MassProperties R → InertiaMat R) :
    List (CreateArgs R J) → Int → Int → Int → List (ConcreteNode R) × Int × Int × Int
  | [], nxtU, nxtUSq, nxtQ => ([], nxtU, nxtUSq, nxtQ)
  | r :: rs, nxtU, nxtUSq, nxtQ =>
    let c := create degreesOfFreedom numCoordinates calcCentroidalInertia
      r.m r.X_PJb r.X_BJ r.type r.isReversed nxtU nxtUSq nxtQ
    let rest := createAll degreesOfFreedom numCoordinates calcCentroidalInertia rs
      c.2.1 c.2.2.1 c.2.2.2
    (c.1 :: rest.1, rest.2)

end Factory

/-! ## The parent/level relation of the class comment -/

section Topology
variable {R : Type}

/-- The node `n` of the store `h` "has exactly one parent node, whose level is
always one less than the current node". -/
def ParentLevelOk (h : Heap R) (n : RigidBodyNode R) : Prop :=
  (∃! p, n.getParent = some p) ∧
    ∃ p pn, n.getParent = some p ∧ h[p]? = some pn ∧ n.getLevel = pn.getLevel + 1

/-- The relation of the class comment ("The root is a special 'Ground' node
defined to be at level 0. ... Every node but Ground has exactly one parent
node, whose level is always one less than the current node"), for the store `h`
with Ground at address `g`: the node at `g` has level 0 and no parent, and every
node at another address has exactly one parent, a node of the store, whose
level is one less. -/
def LevelInvariant (h : Heap R) (g : Nat) : Prop :=
  (∃ gn, h[g]? = some gn ∧ gn.isGroundNode = true ∧ gn.getParent = none) ∧
  ∀ (a : Nat) (n : RigidBodyNode R), h[a]? = some n → a ≠ g → ParentLevelOk h n

/-- The child relation of the class comment ("any node may have an arbitrary
number of children, for which it is the unique parent"): for every node `n`
and every `0 <= i < n.getNChildren()` the child `n.getChild(i)` is a node whose
parent is `n`, and no pointer is in the children lists of two different
nodes. -/
def ChildrenInvariant (h : Heap R) : Prop :=
  (∀ (a : Nat) (n : RigidBodyNode R), h[a]? = some n →
    ∀ i : Int, 0 ≤ i → i < n.getNChildren →
      ∃ c cn, n.getChild i = some (some c) ∧ h[c]? = some cn ∧ cn.getParent = some a) ∧
  (∀ (a b : Nat) (na nb : RigidBodyNode R) (c : Ptr), h[a]? = some na → h[b]? = some nb →
    c ∈ na.children → c ∈ nb.children → a = b)

/-- Every entry of every children list is a node whose parent is the owner of
the list. -/
def ChildrenPointBack (h : Heap R) : Prop :=
  ∀ (a : Nat) (n : RigidBodyNode R), h[a]? = some n → ∀ x ∈ n.children,
    ∃ c cn, x = some c ∧ h[c]? = some cn ∧ cn.getParent = some a

/-- The node at address `c` is in no children list. -/
def IsUnregistered (h : Heap R) (c : Nat) : Prop :=
  ∀ (a : Nat) (n : RigidBodyNode R), h[a]? = some n → some c ∉ n.children

/-- The construction-time constants of `n` and `n'` agree: every accessor of
lines 132-142 returns the same value on both. -/
def SameBodyConstants (n n' : RigidBodyNode R) : Prop :=
  n'.getMassProperties = n.getMassProperties ∧ n'.getMass = n.getMass ∧
  n'.getCOM_B = n.getCOM_B ∧ n'.getInertia_OB_B = n.getInertia_OB_B ∧
  n'.getX_BJ = n.getX_BJ ∧ n'.getX_PJb = n.getX_PJb ∧
  n'.getInertia_CB_B = n.getInertia_CB_B ∧ n'.getX_JB = n.getX_JB ∧
  n'.getRefX_PB = n.getRefX_PB

/-- No two nodes at different addresses of the store have the same
`getNodeNum()`. -/
def NodeNumsUnique (h : Heap R) : Prop :=
  ∀ (a b : Nat) (na nb : RigidBodyNode R), h[a]? = some na → h[b]? = some nb →
    na.getNodeNum = nb.getNodeNum → a = b

/-- No node of the store other than the one at address `a` has node number `k`. -/
def NodeNumFree (h : Heap R) (a : Nat) (k : Int) : Prop :=
  ∀ (b : Nat) (nb : RigidBodyNode R), h[b]? = some nb → b ≠ a → nb.getNodeNum ≠ k

/-- The relation `getLevel() = getParent()->getLevel() + 1` holds at each node
of the store that has a parent, the parent being a node of the store. -/
def ParentLevelRelation (h : Heap R) : Prop :=
  ∀ (a : Nat) (n : RigidBodyNode R), h[a]? = some n → ∀ p, n.getParent = some p →
    ∃ pn, h[p]? = some pn ∧ n.getLevel = pn.getLevel + 1

/-- The node at address `g` is Ground (level 0), it has no parent, and it is the
only node of the store without a parent. -/
def GroundOnlyParentless (h : Heap R) (g : Nat) : Prop :=
  (∃ gn, h[g]? = some gn ∧ gn.isGroundNode = true ∧ gn.getParent = none) ∧
  ∀ (a : Nat) (n : RigidBodyNode R), h[a]? = some n → n.getParent = none → a = g

/-- The node at address `g` is the only node of the store of level 0. -/
def GroundOnlyLevelZero (h : Heap R) (g : Nat) : Prop :=
  (∃ gn, h[g]? = some gn ∧ gn.isGroundNode = true) ∧
  ∀ (a : Nat) (n : RigidBodyNode R), h[a]? = some n → n.isGroundNode = true → a = g

/-- The address reached from address `a` by following `getParent()` `k` times;
`none` when a null parent, or an address that is not a node, is met before the
`k` steps are done. -/
def Heap.ancestor (h : Heap R) : Nat → Nat → Option Nat
  | 0, a => some a
  | k + 1, a =>
    match h[a]? with
    | some n =>
      match n.getParent with
      | some p => Heap.ancestor h k p
      | none => none
    | none => none

end Topology

/-! ## A concrete two-node tree -/

/-- Mass properties of a unit point mass at the body origin. -/
def unitMass : MassProperties Int := ⟨1, Vec3.zero, ⟨Mat33.one⟩⟩

/-- A freshly constructed node over the integers, with identity joint frames. -/
def freshNode : RigidBodyNode Int :=
  RigidBodyNode.construct (fun m => m.inertia) unitMass Transform.identity Transform.identity

/-- The Ground node: level 0, node number 0, no parent, one registered child. -/
def groundNode : RigidBodyNode Int :=
  ((freshNode.setLevel 0).setNodeNum 0).addChild (some 1)

/-- A base node: level 1, node number 1, parent at address 0. -/
def baseNode : RigidBodyNode Int :=
  ((freshNode.setLevel 1).setNodeNum 1).setParent (some 0)

/-- Ground at address 0 and one base node at address 1, registered as the
child of Ground. -/
def groundAndBase : Heap Int := [groundNode, baseNode]

/-- Ground, its base node, and a freshly constructed node at address 2 that is
not linked yet. -/
def groundBaseAndFresh : Heap Int := [groundNode, baseNode, freshNode]

/-- A transform that differs from the identity: a unit shift along x. -/
def shiftX : Transform Int := ⟨Mat33.one, ⟨1, 0, 0⟩⟩

/-- Two distinguishable spatial vectors. -/
def spatialVecA : SpatialVec Int := ⟨Vec3.zero, Vec3.zero⟩

/-- See `spatialVecA`. -/
def spatialVecB : SpatialVec Int := ⟨Vec3.zero, ⟨1, 0, 0⟩⟩

/-- Two distinguishable spatial matrices. -/
def spatialMatA : SpatialMat Int := ⟨Mat33.one, Mat33.one, Mat33.one, Mat33.one⟩

/-- See `spatialMatA`. -/
def spatialMatB : SpatialMat Int := ⟨Mat33.one, Mat33.one.mul Mat33.one, Mat33.one, ⟨2, 0, 0, 0, 2, 0, 0, 0, 2⟩⟩

/-- A configuration cache with pools for two bodies. -/
def sampleConfigurationCache : SBConfigurationCache Int where
  bodyJointInParentJointFrame := [Transform.identity, shiftX]
  bodyConfigInParent := [Transform.identity, shiftX]
  bodyConfigInGround := [Transform.identity, shiftX]
  bodyToParentShift := [⟨Vec3.zero⟩, ⟨⟨1, 0, 0⟩⟩]
  bodySpatialInertia := [spatialMatA, spatialMatB]
  bodyCOMInGround := [Vec3.zero, ⟨1, 0, 0⟩]
  bodyCOMStationInGround := [Vec3.zero, ⟨0, 1, 0⟩]
  bodyInertiaInGround := [⟨Mat33.one⟩, ⟨Mat33.one⟩]

/-- A motion cache with pools for two bodies. -/
def sampleMotionCache : SBMotionCache Int where
  mobilizerRelativeVelocity := [spatialVecA, spatialVecB]
  bodyVelocityInGround := [spatialVecA, spatialVecB]
  bodyVelocityInParent := [spatialVecA, spatialVecB]

/-- A dynamics cache with pools for two bodies. -/
def sampleDynamicsCache : SBDynamicsCache Int where
  appliedRigidBodyForces := [spatialVecA, spatialVecB]
  articulatedBodyInertia := [spatialMatA, spatialMatB]
  coriolisAcceleration := [spatialVecA, spatialVecB]
  gyroscopicForces := [spatialVecA, spatialVecB]
  centrifugalForces := [spatialVecA, spatialVecB]
  psi := [spatialMatA, spatialMatB]
  tauBar := [spatialMatA, spatialMatB]
  Y := [spatialMatA, spatialMatB]

/-- A reaction cache with pools for two bodies. -/
def sampleReactionCache : SBReactionCache Int where
  bodyAccelerationInGround := [spatialVecA, spatialVecB]
  z := [spatialVecA, spatialVecB]
  Gepsilon := [spatialVecA, spatialVecB]

/-- Modeling variables for two bodies. -/
def sampleModelingVars : SBModelingVars := ⟨false, [false, false]⟩

/-- The rotation by a quarter turn about z, with translation (1, 2, 3). -/
def quarterTurn : Transform Int := ⟨⟨0, -1, 0, 1, 0, 0, 0, 0, 1⟩, ⟨1, 2, 3⟩⟩

/-- A node at level 2: node number 2, parent at address 1. -/
def secondLevelNode : RigidBodyNode Int :=
  ((freshNode.setLevel 2).setNodeNum 2).setParent (some 1)

/-- A chain of three nodes: Ground, its base node, and a child of the base
node. -/
def threeLevels : Heap Int := [groundNode, baseNode.addChild (some 2), secondLevelNode]

/-! ## Theorems -/

section HeapLemmas
variable {R : Type}

theorem Heap.call_of_get {h : Heap R} {a : Nat} {n : RigidBodyNode R}
    (hn : h[a]? = some n) (f : RigidBodyNode R → RigidBodyNode R) :
    h.call a f = some (h.set a (f n)) := by
  simp [Heap.call, hn]

theorem Heap.get_set_self {h : Heap R} {a : Nat} {n : RigidBodyNode R}
    (hn : h[a]? = some n) (x : RigidBodyNode R) : (h.set a x)[a]? = some x := by
  have ha : a < h.length := (List.getElem?_eq_some_iff.mp hn).1
  simp [List.getElem?_set, ha]

theorem Heap.get_set_other {h : Heap R} {a b : Nat} (hab : a ≠ b) (x : RigidBodyNode R) :
    (h.set a x)[b]? = h[b]? := by
  simp [List.getElem?_set, hab]

theorem Heap.call_of_lt (h : Heap R) {a : Nat} (ha : a < h.length)
    (f : RigidBodyNode R → RigidBodyNode R) :
    ∃ h', h.call a f = some h' ∧ h'.length = h.length := by
  refine ⟨h.set a (f h[a]), ?_, by simp⟩
  simp [Heap.call, List.getElem?_eq_getElem ha]

/-- After a call on the object at `a`, each address holds the old object,
changed by the call when the address is `a`. -/
theorem Heap.call_lookup {h h' : Heap R} {a : Nat} {f : RigidBodyNode R → RigidBodyNode R}
    (hc : h.call a f = some h') (b : Nat) :
    h'[b]? = (h[b]?).map (fun m => if b = a then f m else m) := by
  unfold Heap.call at hc
  split at hc
  · rename_i n hn
    cases hc
    by_cases hab : a = b
    · subst hab
      rw [Heap.get_set_self hn, hn]
      simp
    · rw [Heap.get_set_other hab]
      have hba : ¬ b = a := fun e => hab e.symm
      cases h[b]? <;> simp [hba]
  · cases hc

end HeapLemmas

section LevelLemmas
variable {R : Type}

theorem ParentLevelOk.of_parent {h : Heap R} {m : RigidBodyNode R} {p : Nat}
    {pn : RigidBodyNode R} (hp : m.getParent = some p) (hpn : h[p]? = some pn)
    (hl : m.getLevel = pn.getLevel + 1) : ParentLevelOk h m := by
  refine ⟨⟨p, hp, ?_⟩, p, pn, hp, hpn, hl⟩
  intro q hq
  rw [hp] at hq
  exact (Option.some.inj hq).symm

/-- The relation depends only on the parent and the level stored at each
address. -/
theorem LevelInvariant.of_same_parents_and_levels {h h' : Heap R} {g : Nat}
    (hs : ∀ b : Nat, (h'[b]?).map (fun m => (m.getParent, m.getLevel)) =
      (h[b]?).map (fun m => (m.getParent, m.getLevel)))
    (hinv : LevelInvariant h g) : LevelInvariant h' g := by
  have fwd : ∀ (b : Nat) (m : RigidBodyNode R), h[b]? = some m →
      ∃ m', h'[b]? = some m' ∧ m'.getParent = m.getParent ∧ m'.getLevel = m.getLevel := by
    intro b m hm
    have e := hs b
    rw [hm] at e
    obtain ⟨m', hm', hsh⟩ := Option.map_eq_some'.mp e
    exact ⟨m', hm', congrArg Prod.fst hsh, congrArg Prod.snd hsh⟩
  have bwd : ∀ (b : Nat) (m' : RigidBodyNode R), h'[b]? = some m' →
      ∃ m, h[b]? = some m ∧ m'.getParent = m.getParent ∧ m'.getLevel = m.getLevel := by
    intro b m' hm'
    have e := (hs b).symm
    rw [hm'] at e
    obtain ⟨m, hm, hsh⟩ := Option.map_eq_some'.mp e
    exact ⟨m, hm, (congrArg Prod.fst hsh).symm, (congrArg Prod.snd hsh).symm⟩
  obtain ⟨⟨gn, hgn, hgr, hgp⟩, hrest⟩ := hinv
  constructor
  · obtain ⟨gn', hgn', hp', hl'⟩ := fwd g gn hgn
    refine ⟨gn', hgn', ?_, by rw [hp', hgp]⟩
    simp only [RigidBodyNode.isGroundNode, RigidBodyNode.getLevel] at hgr hl' ⊢
    rw [hl']
    exact hgr
  · intro b m' hm' hbg
    obtain ⟨m, hm, hp', hl'⟩ := bwd b m' hm'
    obtain ⟨_, q, qn, hq, hqn, hql⟩ := hrest b m hm hbg
    obtain ⟨qn', hqn', _, hqnl⟩ := fwd q qn hqn
    exact ParentLevelOk.of_parent (by rw [hp', hq]) hqn' (by rw [hl', hql, hqnl])

/-- A call on the object at `a` that keeps its parent and its level keeps the
relation. -/
theorem LevelInvariant.of_level_keeping_call {h h' : Heap R} {g a : Nat}
    {f : RigidBodyNode R → RigidBodyNode R} (hc : h.call a f = some h')
    (hp : ∀ m, (f m).getParent = m.getParent) (hl : ∀ m, (f m).getLevel = m.getLevel)
    (hinv : LevelInvariant h g) : LevelInvariant h' g := by
  apply LevelInvariant.of_same_parents_and_levels _ hinv
  intro b
  rw [Heap.call_lookup hc b]
  cases h[b]? with
  | none => rfl
  | some m =>
    simp only [Option.map_some']
    split
    · rw [hp, hl]
    · rfl

theorem Heap.lookup_after_call_self {h h' : Heap R} {a : Nat} {n : RigidBodyNode R}
    {f : RigidBodyNode R → RigidBodyNode R} (hc : h.call a f = some h')
    (hn : h[a]? = some n) : h'[a]? = some (f n) := by
  rw [Heap.call_lookup hc a, hn]
  simp

theorem Heap.lookup_after_call_other {h h' : Heap R} {a b : Nat}
    {f : RigidBodyNode R → RigidBodyNode R} (hc : h.call a f = some h')
    (hba : b ≠ a) : h'[b]? = h[b]? := by
  rw [Heap.call_lookup hc b]
  cases h[b]? with
  | none => rfl
  | some m => simp [hba]

/-- In a store that satisfies the relation, `setLevel(i)` on a node keeps the
relation exactly when `i` is the level the node already has. -/
theorem LevelInvariant.after_setLevel_iff {h h' : Heap R} {g a : Nat}
    {n : RigidBodyNode R} {i : Int} (hinv : LevelInvariant h g) (hn : h[a]? = some n)
    (hc : h.setLevel a i = some h') : LevelInvariant h' g ↔ i = n.getLevel := by
  have hself : h'[a]? = some (n.setLevel i) := Heap.lookup_after_call_self hc hn
  constructor
  · intro hinv'
    by_cases hag : a = g
    · subst hag
      obtain ⟨⟨gn', hgn', hgr', _⟩, _⟩ := hinv'
      obtain ⟨⟨gn, hgn, hgr, _⟩, _⟩ := hinv
      rw [hself] at hgn'
      cases hgn'
      rw [hn] at hgn
      cases hgn
      simp only [RigidBodyNode.isGroundNode, RigidBodyNode.setLevel,
        RigidBodyNode.getLevel, beq_iff_eq] at hgr hgr' ⊢
      rw [hgr, hgr']
    · obtain ⟨_, p', pn', hp', hpn', hl'⟩ := hinv'.2 a _ hself hag
      obtain ⟨_, p, pn, hp, hpn, hl⟩ := hinv.2 a n hn hag
      have hpp : p' = p := by
        have e : n.getParent = some p' := hp'
        rw [hp] at e
        exact (Option.some.inj e).symm
      subst hpp
      have hpa : p' ≠ a := by
        intro e
        subst e
        rw [hn] at hpn
        cases hpn
        omega
      rw [Heap.lookup_after_call_other hc hpa, hpn] at hpn'
      cases hpn'
      have e : i = (_ : Int) + 1 := hl'
      omega
  · intro hi
    subst hi
    apply LevelInvariant.of_same_parents_and_levels _ hinv
    intro b
    by_cases hba : b = a
    · subst hba
      rw [hself, hn]
      rfl
    · rw [Heap.lookup_after_call_other hc hba]

/-- In a store that satisfies the relation, `setParent(p)` on a node keeps the
relation exactly when the node is Ground and `p` is null, or the node is not
Ground and `p` is a node of the store whose level is one less than its own. -/
theorem LevelInvariant.after_setParent_iff {h h' : Heap R} {g a : Nat}
    {n : RigidBodyNode R} {p : Ptr} (hinv : LevelInvariant h g) (hn : h[a]? = some n)
    (hc : h.setParent a p = some h') :
    LevelInvariant h' g ↔
      (a = g ∧ p = none) ∨
      (a ≠ g ∧ ∃ (q : Nat) (qn : RigidBodyNode R), p = some q ∧ h[q]? = some qn ∧
        n.getLevel = qn.getLevel + 1) := by
  have hself : h'[a]? = some (n.setParent p) := Heap.lookup_after_call_self hc hn
  constructor
  · intro hinv'
    by_cases hag : a = g
    · subst hag
      obtain ⟨⟨gn', hgn', _, hgp'⟩, _⟩ := hinv'
      rw [hself] at hgn'
      cases hgn'
      exact Or.inl ⟨rfl, hgp'⟩
    · obtain ⟨_, q, qn', hq, hqn', hl'⟩ := hinv'.2 a _ hself hag
      have hqa : q ≠ a := by
        intro e
        subst e
        rw [hself] at hqn'
        cases hqn'
        have e : n.getLevel = n.getLevel + 1 := hl'
        omega
      rw [Heap.lookup_after_call_other hc hqa] at hqn'
      exact Or.inr ⟨hag, q, qn', hq, hqn', hl'⟩
  · rintro (⟨hag, hp⟩ | ⟨hag, q, qn, hp, hqn, hl⟩)
    · subst hag
      subst hp
      obtain ⟨gn, hgn, _, hgp⟩ := hinv.1
      rw [hn] at hgn
      cases hgn
      apply LevelInvariant.of_same_parents_and_levels _ hinv
      intro b
      by_cases hba : b = a
      · subst hba
        rw [hself, hn]
        simp only [Option.map_some', RigidBodyNode.setParent, RigidBodyNode.getParent,
          RigidBodyNode.getLevel] at hgp ⊢
        rw [hgp]
      · rw [Heap.lookup_after_call_other hc hba]
    · subst hp
      have hqa : q ≠ a := by
        intro e
        subst e
        rw [hn] at hqn
        cases hqn
        omega
      constructor
      · obtain ⟨gn, hgn, hgr, hgp⟩ := hinv.1
        exact ⟨gn, by rw [Heap.lookup_after_call_other hc (Ne.symm hag)]; exact hgn,
          hgr, hgp⟩
      · intro b m' hm' hbg
        by_cases hba : b = a
        · subst hba
          rw [hself] at hm'
          cases hm'
          exact ParentLevelOk.of_parent rfl
            (by rw [Heap.lookup_after_call_other hc hqa]; exact hqn) hl
        · rw [Heap.lookup_after_call_other hc hba] at hm'
          obtain ⟨_, r, rn, hr, hrn, hrl⟩ := hinv.2 b m' hm' hbg
          by_cases hra : r = a
          · subst hra
            rw [hn] at hrn
            cases hrn
            exact ParentLevelOk.of_parent hr hself hrl
          · exact ParentLevelOk.of_parent hr
              (by rw [Heap.lookup_after_call_other hc hra]; exact hrn) hrl

/-- A node object that is given level `p->getLevel() + 1` and parent `p`, and
then joins the store, keeps the relation. -/
theorem LevelInvariant.after_attach {h h' : Heap R} {g p : Nat} (c : RigidBodyNode R)
    (hinv : LevelInvariant h g) (ha : h.attach c p = some h') :
    LevelInvariant h' g ∧ h'.length = h.length + 1 := by
  unfold Heap.attach at ha
  split at ha
  · rename_i pn hpn
    have old : ∀ (b : Nat) (m : RigidBodyNode R), h[b]? = some m →
        (h ++ [(c.setLevel (pn.getLevel + 1)).setParent (some p)])[b]? = some m := by
      intro b m hm
      rw [List.getElem?_append_left (List.getElem?_eq_some_iff.mp hm).1]
      exact hm
    have mid : LevelInvariant (h ++ [(c.setLevel (pn.getLevel + 1)).setParent (some p)]) g := by
      obtain ⟨⟨gn, hgn, hgr, hgp⟩, hrest⟩ := hinv
      refine ⟨⟨gn, old g gn hgn, hgr, hgp⟩, ?_⟩
      intro b m hm hbg
      by_cases hlt : b < h.length
      · rw [List.getElem?_append_left hlt] at hm
        obtain ⟨_, q, qn, hq, hqn, hql⟩ := hrest b m hm hbg
        exact ParentLevelOk.of_parent hq (old q qn hqn) hql
      · rw [List.getElem?_append_right (Nat.le_of_not_lt hlt)] at hm
        have hm0 : b - h.length = 0 := by
          by_contra hne
          obtain ⟨k, hk⟩ : ∃ k, b - h.length = k + 1 := ⟨b - h.length - 1, by omega⟩
          rw [hk] at hm
          simp at hm
        rw [hm0] at hm
        simp only [List.getElem?_cons_zero, Option.some.injEq] at hm
        subst hm
        exact ParentLevelOk.of_parent rfl (old p pn hpn) rfl
    have hlen : (h ++ [(c.setLevel (pn.getLevel + 1)).setParent (some p)]).length =
        h.length + 1 := by simp
    obtain ⟨h2, hc2, hlen2⟩ := Heap.call_of_lt
      (h ++ [(c.setLevel (pn.getLevel + 1)).setParent (some p)])
      (show p < _ by have := (List.getElem?_eq_some_iff.mp hpn).1; omega)
      (fun n => n.addChild (some h.length))
    have e : h' = h2 := by
      unfold Heap.addChild at ha
      rw [hc2] at ha
      exact (Option.some.inj ha).symm
    subst e
    exact ⟨LevelInvariant.of_level_keeping_call hc2 (fun _ => rfl) (fun _ => rfl) mid,
      by rw [hlen2, hlen]⟩
  · cases ha

end LevelLemmas

theorem groundAndBase_levelInvariant : LevelInvariant groundAndBase 0 := by
  refine ⟨⟨groundNode, rfl, by decide, by decide⟩, ?_⟩
  intro a n hn hag
  match a, hn with
  | 0, _ => exact absurd rfl hag
  | 1, hn =>
    simp only [groundAndBase, List.getElem?_cons_succ, List.getElem?_cons_zero,
      Option.some.injEq] at hn
    subst hn
    exact ParentLevelOk.of_parent (p := 0) rfl rfl (by decide)
  | k + 2, hn => simp [groundAndBase] at hn

section PoolLemmas
variable {R : Type} {α : Type}

theorem RigidBodyNode.fromB_of_inRange (n : RigidBodyNode R) (x : List α) (k : Nat)
    (h0 : 0 ≤ n.getNodeNum) (hk : n.getNodeNum < k) (hx : x.length = k) :
    ∃ e, x[n.getNodeNum.toNat]? = some e ∧ n.fromB x = some e := by
  have hlt : n.getNodeNum.toNat < x.length := by omega
  refine ⟨x[n.getNodeNum.toNat], List.getElem?_eq_getElem hlt, ?_⟩
  simp only [RigidBodyNode.getNodeNum] at h0 hlt ⊢
  simp [RigidBodyNode.fromB, h0, List.getElem?_eq_getElem hlt]

theorem RigidBodyNode.toB_of_inRange (n : RigidBodyNode R) (x : List α) (v : α) (k : Nat)
    (h0 : 0 ≤ n.getNodeNum) (hk : n.getNodeNum < k) (hx : x.length = k) :
    n.toB x v = some (x.set n.getNodeNum.toNat v) := by
  have hlt : n.getNodeNum.toNat < x.length := by omega
  simp only [RigidBodyNode.getNodeNum] at h0 hlt ⊢
  simp [RigidBodyNode.toB, h0, hlt]

theorem RigidBodyNode.fromB_set_self (n : RigidBodyNode R) (x : List α) (v : α) (k : Nat)
    (h0 : 0 ≤ n.getNodeNum) (hk : n.getNodeNum < k) (hx : x.length = k) :
    n.fromB (x.set n.getNodeNum.toNat v) = some v := by
  have hlt : n.getNodeNum.toNat < x.length := by omega
  simp only [RigidBodyNode.getNodeNum] at h0 hlt ⊢
  simp [RigidBodyNode.fromB, h0, List.getElem?_set, hlt]

theorem RigidBodyNode.fromB_set_other (a b : RigidBodyNode R) (x : List α) (v : α)
    (ha : 0 ≤ a.getNodeNum) (hab : a.getNodeNum ≠ b.getNodeNum) :
    b.fromB (x.set a.getNodeNum.toNat v) = b.fromB x := by
  simp only [RigidBodyNode.getNodeNum] at ha hab ⊢
  unfold RigidBodyNode.fromB
  split
  · rename_i hb
    have hne : a.nodeNum.toNat ≠ b.nodeNum.toNat := by omega
    simp [List.getElem?_set, hne]
  · rfl

end PoolLemmas

/-! ### C1 -/

/-- C1, as stated, fails: in the two-node tree (Ground at level 0 and a base
node at level 1 whose parent is Ground) the parent/level relation holds, and
each of the calls `setLevel(5)`, `setLevel(0)` and `setParent(0)` on the base
node returns a store in which the relation is violated. -/
theorem C1_setters_break_level_relation :
    LevelInvariant groundAndBase 0 ∧
    (∃ h', groundAndBase.setLevel 1 5 = some h' ∧ ¬ LevelInvariant h' 0) ∧
    (∃ h', groundAndBase.setLevel 1 0 = some h' ∧ ¬ LevelInvariant h' 0) ∧
    (∃ h', groundAndBase.setParent 1 none = some h' ∧ ¬ LevelInvariant h' 0) := by
  refine ⟨groundAndBase_levelInvariant, ⟨_, rfl, ?_⟩, ⟨_, rfl, ?_⟩, ⟨_, rfl, ?_⟩⟩
  · intro hinv
    obtain ⟨_, p, pn, hp, hpn, hl⟩ := hinv.2 1 _ rfl (by decide)
    cases hp
    cases hpn
    exact absurd hl (by decide)
  · intro hinv
    obtain ⟨_, p, pn, hp, hpn, hl⟩ := hinv.2 1 _ rfl (by decide)
    cases hp
    cases hpn
    exact absurd hl (by decide)
  · intro hinv
    obtain ⟨_, p, pn, hp, _, _⟩ := hinv.2 1 _ rfl (by decide)
    cases hp

/-- C1, amended: the setters store their argument unchecked. In a store where
Ground has level 0 and no parent and every other node has exactly one parent,
a node of the store, whose level is one less, the same holds after
`setNodeNum(k)` and after `addChild(c)` on any node for all arguments; after
`setLevel(i)` it holds exactly when `i` is the level the node already has;
after `setParent(p)` it holds exactly when the node is Ground and `p` is null,
or the node is not Ground and `p` is a node whose level is one less than the
node's; and it holds after a node object given level `p->getLevel() + 1` and
parent `p` joins the store as a child of `p`. Each call returns. -/
theorem C1_level_relation_preserved {R : Type} (h : Heap R) (g a : Nat)
    (n : RigidBodyNode R) (hn : h[a]? = some n) (hinv : LevelInvariant h g) :
    (∀ k, ∃ h', h.setNodeNum a k = some h' ∧ LevelInvariant h' g) ∧
    (∀ c, ∃ h', h.addChild a c = some h' ∧ LevelInvariant h' g) ∧
    (∀ i, ∃ h', h.setLevel a i = some h' ∧ (LevelInvariant h' g ↔ i = n.getLevel)) ∧
    (∀ p, ∃ h', h.setParent a p = some h' ∧
      (LevelInvariant h' g ↔
        (a = g ∧ p = none) ∨
        (a ≠ g ∧ ∃ (q : Nat) (qn : RigidBodyNode R), p = some q ∧ h[q]? = some qn ∧
          n.getLevel = qn.getLevel + 1))) ∧
    (∀ c : RigidBodyNode R, ∃ h', h.attach c a = some h' ∧ LevelInvariant h' g ∧
      h'.length = h.length + 1) := by
  have ha : a < h.length := (List.getElem?_eq_some_iff.mp hn).1
  refine ⟨?_, ?_, ?_, ?_, ?_⟩
  · intro k
    obtain ⟨h', hc, _⟩ := h.call_of_lt ha (fun x => x.setNodeNum k)
    exact ⟨h', hc, LevelInvariant.of_level_keeping_call hc (fun _ => rfl) (fun _ => rfl) hinv⟩
  · intro c
    obtain ⟨h', hc, _⟩ := h.call_of_lt ha (fun x => x.addChild c)
    exact ⟨h', hc, LevelInvariant.of_level_keeping_call hc (fun _ => rfl) (fun _ => rfl) hinv⟩
  · intro i
    obtain ⟨h', hc, _⟩ := h.call_of_lt ha (fun x => x.setLevel i)
    exact ⟨h', hc, LevelInvariant.after_setLevel_iff hinv hn hc⟩
  · intro p
    obtain ⟨h', hc, _⟩ := h.call_of_lt ha (fun x => x.setParent p)
    exact ⟨h', hc, LevelInvariant.after_setParent_iff hinv hn hc⟩
  · intro c
    have hsome : ∃ h', h.attach c a = some h' := by
      obtain ⟨h2, hc2, _⟩ := Heap.call_of_lt
        (h ++ [(c.setLevel (n.getLevel + 1)).setParent (some a)])
        (show a < _ by simp only [List.length_append, List.length_singleton]; omega)
        (fun x => x.addChild (some h.length))
      exact ⟨h2, by simp only [Heap.attach, hn]; exact hc2⟩
    obtain ⟨h', hat⟩ := hsome
    exact ⟨h', hat, LevelInvariant.after_attach c hinv hat⟩

/-- Witness of C1 (amended) on the two-node tree, at the base node: a freshly
constructed node joins the tree under the base node and the relation holds in
the three-node store; `setLevel(0)` on the base node keeps the relation only
if 0 is the level the base node has, which it is not. -/
theorem C1_level_relation_preserved_witness :
    LevelInvariant groundAndBase 0 ∧
    (∃ h', groundAndBase.attach freshNode 1 = some h' ∧ LevelInvariant h' 0 ∧
      h'.length = groundAndBase.length + 1) ∧
    (∃ h', groundAndBase.setLevel 1 0 = some h' ∧
      (LevelInvariant h' 0 ↔ (0 : Int) = baseNode.getLevel)) :=
  have key := C1_level_relation_preserved groundAndBase 0 1 baseNode rfl
    groundAndBase_levelInvariant
  ⟨groundAndBase_levelInvariant, key.2.2.2.2 freshNode, key.2.2.1 0⟩

/-! ### C2 -/

/-- C2: for a node with `0 <= nodeNum < k` and caches whose per-body pools have
length `k`, every `get` accessor returns the element at position `nodeNum` of
the pool it names (`getX_JbJ` of `bodyJointInParentJointFrame`, `getX_PB` of
`bodyConfigInParent`, `getX_GB` of `bodyConfigInGround`, `getPhi` of
`bodyToParentShift`, `getMk` of `bodySpatialInertia`, `getV_GB` of
`bodyVelocityInGround`, `getA_GB` of `bodyAccelerationInGround`, `getP` of
`articulatedBodyInertia`, and so on), and a store through the matching `upd`
accessor replaces exactly that position of that pool, so that the `get`
accessor then returns the stored value. -/
theorem C2_accessors_address_own_slot {R : Type} (n : RigidBodyNode R) (k : Nat)
    (cc : SBConfigurationCache R) (mc : SBMotionCache R) (dc : SBDynamicsCache R) (rc : SBReactionCache R)
    (h0 : 0 ≤ n.getNodeNum) (hk : n.getNodeNum < k)
    (hcc : cc.Sized k) (hmc : mc.Sized k) (hdc : dc.Sized k) (hrc : rc.Sized k) :
    (∃ e, cc.bodyJointInParentJointFrame[n.getNodeNum.toNat]? = some e ∧ n.getX_JbJ cc = some e) ∧
    (∃ e, cc.bodyConfigInParent[n.getNodeNum.toNat]? = some e ∧ n.getX_PB cc = some e) ∧
    (∃ e, cc.bodyConfigInGround[n.getNodeNum.toNat]? = some e ∧ n.getX_GB cc = some e) ∧
    (∃ e, cc.bodyToParentShift[n.getNodeNum.toNat]? = some e ∧ n.getPhi cc = some e) ∧
    (∃ e, cc.bodySpatialInertia[n.getNodeNum.toNat]? = some e ∧ n.getMk cc = some e) ∧
    (∃ e, cc.bodyCOMInGround[n.getNodeNum.toNat]? = some e ∧ n.getCOM_G cc = some e) ∧
    (∃ e, cc.bodyCOMStationInGround[n.getNodeNum.toNat]? = some e ∧ n.getCB_G cc = some e) ∧
    (∃ e, cc.bodyInertiaInGround[n.getNodeNum.toNat]? = some e ∧ n.getInertia_OB_G cc = some e) ∧
    (∃ e, mc.mobilizerRelativeVelocity[n.getNodeNum.toNat]? = some e ∧ n.getV_JbJ mc = some e) ∧
    (∃ e, mc.bodyVelocityInGround[n.getNodeNum.toNat]? = some e ∧ n.getV_GB mc = some e) ∧
    (∃ e, mc.bodyVelocityInParent[n.getNodeNum.toNat]? = some e ∧ n.getV_PB_G mc = some e) ∧
    (∃ e, dc.appliedRigidBodyForces[n.getNodeNum.toNat]? = some e ∧ n.getBodyForce dc = some e) ∧
    (∃ e, dc.articulatedBodyInertia[n.getNodeNum.toNat]? = some e ∧ n.getP dc = some e) ∧
    (∃ e, dc.coriolisAcceleration[n.getNodeNum.toNat]? = some e ∧ n.getCoriolisAcceleration dc = some e) ∧
    (∃ e, dc.gyroscopicForces[n.getNodeNum.toNat]? = some e ∧ n.getGyroscopicForce dc = some e) ∧
    (∃ e, dc.centrifugalForces[n.getNodeNum.toNat]? = some e ∧ n.getCentrifugalForces dc = some e) ∧
    (∃ e, dc.psi[n.getNodeNum.toNat]? = some e ∧ n.getPsi dc = some e) ∧
    (∃ e, dc.tauBar[n.getNodeNum.toNat]? = some e ∧ n.getTauBar dc = some e) ∧
    (∃ e, dc.Y[n.getNodeNum.toNat]? = some e ∧ n.getY dc = some e) ∧
    (∃ e, rc.bodyAccelerationInGround[n.getNodeNum.toNat]? = some e ∧ n.getA_GB rc = some e) ∧
    (∃ e, rc.z[n.getNodeNum.toNat]? = some e ∧ n.getZ rc = some e) ∧
    (∃ e, rc.Gepsilon[n.getNodeNum.toNat]? = some e ∧ n.getGepsilon rc = some e) ∧
    (∀ v, n.updX_JbJ cc v = some { cc with bodyJointInParentJointFrame := cc.bodyJointInParentJointFrame.set n.getNodeNum.toNat v } ∧
      n.getX_JbJ { cc with bodyJointInParentJointFrame := cc.bodyJointInParentJointFrame.set n.getNodeNum.toNat v } = some v) ∧
    (∀ v, n.updX_PB cc v = some { cc with bodyConfigInParent := cc.bodyConfigInParent.set n.getNodeNum.toNat v } ∧
      n.getX_PB { cc with bodyConfigInParent := cc.bodyConfigInParent.set n.getNodeNum.toNat v } = some v) ∧
    (∀ v, n.updX_GB cc v = some { cc with bodyConfigInGround := cc.bodyConfigInGround.set n.getNodeNum.toNat v } ∧
      n.getX_GB { cc with bodyConfigInGround := cc.bodyConfigInGround.set n.getNodeNum.toNat v } = some v) ∧
    (∀ v, n.updPhi cc v = some { cc with bodyToParentShift := cc.bodyToParentShift.set n.getNodeNum.toNat v } ∧
      n.getPhi { cc with bodyToParentShift := cc.bodyToParentShift.set n.getNodeNum.toNat v } = some v) ∧
    (∀ v, n.updMk cc v = some { cc with bodySpatialInertia := cc.bodySpatialInertia.set n.getNodeNum.toNat v } ∧
      n.getMk { cc with bodySpatialInertia := cc.bodySpatialInertia.set n.getNodeNum.toNat v } = some v) ∧
    (∀ v, n.updCOM_G cc v = some { cc with bodyCOMInGround := cc.bodyCOMInGround.set n.getNodeNum.toNat v } ∧
      n.getCOM_G { cc with bodyCOMInGround := cc.bodyCOMInGround.set n.getNodeNum.toNat v } = some v) ∧
    (∀ v, n.updCB_G cc v = some { cc with bodyCOMStationInGround := cc.bodyCOMStationInGround.set n.getNodeNum.toNat v } ∧
      n.getCB_G { cc with bodyCOMStationInGround := cc.bodyCOMStationInGround.set n.getNodeNum.toNat v } = some v) ∧
    (∀ v, n.updInertia_OB_G cc v = some { cc with bodyInertiaInGround := cc.bodyInertiaInGround.set n.getNodeNum.toNat v } ∧
      n.getInertia_OB_G { cc with bodyInertiaInGround := cc.bodyInertiaInGround.set n.getNodeNum.toNat v } = some v) ∧
    (∀ v, n.updV_JbJ mc v = some { mc with mobilizerRelativeVelocity := mc.mobilizerRelativeVelocity.set n.getNodeNum.toNat v } ∧
      n.getV_JbJ { mc with mobilizerRelativeVelocity := mc.mobilizerRelativeVelocity.set n.getNodeNum.toNat v } = some v) ∧
    (∀ v, n.updV_GB mc v = some { mc with bodyVelocityInGround := mc.bodyVelocityInGround.set n.getNodeNum.toNat v } ∧
      n.getV_GB { mc with bodyVelocityInGround := mc.bodyVelocityInGround.set n.getNodeNum.toNat v } = some v) ∧
    (∀ v, n.updV_PB_G mc v = some { mc with bodyVelocityInParent := mc.bodyVelocityInParent.set n.getNodeNum.toNat v } ∧
      n.getV_PB_G { mc with bodyVelocityInParent := mc.bodyVelocityInParent.set n.getNodeNum.toNat v } = some v) ∧
    (∀ v, n.updP dc v = some { dc with articulatedBodyInertia := dc.articulatedBodyInertia.set n.getNodeNum.toNat v } ∧
      n.getP { dc with articulatedBodyInertia := dc.articulatedBodyInertia.set n.getNodeNum.toNat v } = some v) ∧
    (∀ v, n.updCoriolisAcceleration dc v = some { dc with coriolisAcceleration := dc.coriolisAcceleration.set n.getNodeNum.toNat v } ∧
      n.getCoriolisAcceleration { dc with coriolisAcceleration := dc.coriolisAcceleration.set n.getNodeNum.toNat v } = some v) ∧
    (∀ v, n.updGyroscopicForce dc v = some { dc with gyroscopicForces := dc.gyroscopicForces.set n.getNodeNum.toNat v } ∧
      n.getGyroscopicForce { dc with gyroscopicForces := dc.gyroscopicForces.set n.getNodeNum.toNat v } = some v) ∧
    (∀ v, n.updCentrifugalForces dc v = some { dc with centrifugalForces := dc.centrifugalForces.set n.getNodeNum.toNat v } ∧
      n.getCentrifugalForces { dc with centrifugalForces := dc.centrifugalForces.set n.getNodeNum.toNat v } = some v) ∧
    (∀ v, n.updPsi dc v = some { dc with psi := dc.psi.set n.getNodeNum.toNat v } ∧
      n.getPsi { dc with psi := dc.psi.set n.getNodeNum.toNat v } = some v) ∧
    (∀ v, n.updTauBar dc v = some { dc with tauBar := dc.tauBar.set n.getNodeNum.toNat v } ∧
      n.getTauBar { dc with tauBar := dc.tauBar.set n.getNodeNum.toNat v } = some v) ∧
    (∀ v, n.updY dc v = some { dc with Y := dc.Y.set n.getNodeNum.toNat v } ∧
      n.getY { dc with Y := dc.Y.set n.getNodeNum.toNat v } = some v) ∧
    (∀ v, n.updA_GB rc v = some { rc with bodyAccelerationInGround := rc.bodyAccelerationInGround.set n.getNodeNum.toNat v } ∧
      n.getA_GB { rc with bodyAccelerationInGround := rc.bodyAccelerationInGround.set n.getNodeNum.toNat v } = some v) ∧
    (∀ v, n.updZ rc v = some { rc with z := rc.z.set n.getNodeNum.toNat v } ∧
      n.getZ { rc with z := rc.z.set n.getNodeNum.toNat v } = some v) ∧
    (∀ v, n.updGepsilon rc v = some { rc with Gepsilon := rc.Gepsilon.set n.getNodeNum.toNat v } ∧
      n.getGepsilon { rc with Gepsilon := rc.Gepsilon.set n.getNodeNum.toNat v } = some v) := by
  obtain ⟨c1, c2, c3, c4, c5, c6, c7, c8⟩ := hcc
  obtain ⟨m1, m2, m3⟩ := hmc
  obtain ⟨d1, d2, d3, d4, d5, d6, d7, d8⟩ := hdc
  obtain ⟨r1, r2, r3⟩ := hrc
  simp only [RigidBodyNode.getX_JbJ, RigidBodyNode.updX_JbJ, RigidBodyNode.getX_PB, RigidBodyNode.updX_PB, RigidBodyNode.getX_GB, RigidBodyNode.updX_GB, RigidBodyNode.getPhi, RigidBodyNode.updPhi, RigidBodyNode.getMk, RigidBodyNode.updMk, RigidBodyNode.getCOM_G, RigidBodyNode.updCOM_G, RigidBodyNode.getCB_G, RigidBodyNode.updCB_G, RigidBodyNode.getInertia_OB_G, RigidBodyNode.updInertia_OB_G, RigidBodyNode.getV_JbJ, RigidBodyNode.updV_JbJ, RigidBodyNode.getV_GB, RigidBodyNode.updV_GB, RigidBodyNode.getV_PB_G, RigidBodyNode.updV_PB_G, RigidBodyNode.getBodyForce, RigidBodyNode.getP, RigidBodyNode.updP, RigidBodyNode.getCoriolisAcceleration, RigidBodyNode.updCoriolisAcceleration, RigidBodyNode.getGyroscopicForce, RigidBodyNode.updGyroscopicForce, RigidBodyNode.getCentrifugalForces, RigidBodyNode.updCentrifugalForces, RigidBodyNode.getPsi, RigidBodyNode.updPsi, RigidBodyNode.getTauBar, RigidBodyNode.updTauBar, RigidBodyNode.getY, RigidBodyNode.updY, RigidBodyNode.getA_GB, RigidBodyNode.updA_GB, RigidBodyNode.getZ, RigidBodyNode.updZ, RigidBodyNode.getGepsilon, RigidBodyNode.updGepsilon]
  refine ⟨?_, ?_, ?_, ?_, ?_, ?_, ?_, ?_, ?_, ?_, ?_, ?_, ?_, ?_, ?_, ?_, ?_, ?_, ?_, ?_, ?_, ?_, ?_, ?_, ?_, ?_, ?_, ?_, ?_, ?_, ?_, ?_, ?_, ?_, ?_, ?_, ?_, ?_, ?_, ?_, ?_, ?_, ?_⟩
  all_goals first
    | exact n.fromB_of_inRange _ k h0 hk (by assumption)
    | (intro v
       refine ⟨?_, n.fromB_set_self _ v k h0 hk (by assumption)⟩
       rw [n.toB_of_inRange _ v k h0 hk (by assumption)]
       rfl)

/-- Witness of C2: the base node (node number 1) and caches with pools for two
bodies; the conjunct of `getX_GB`. -/
theorem C2_accessors_address_own_slot_witness :
    (0 ≤ baseNode.getNodeNum ∧ baseNode.getNodeNum < 2 ∧
      sampleConfigurationCache.Sized 2) ∧
    ∃ e, sampleConfigurationCache.bodyConfigInGround[baseNode.getNodeNum.toNat]? = some e ∧
      baseNode.getX_GB sampleConfigurationCache = some e :=
  ⟨⟨by decide, by decide, rfl, rfl, rfl, rfl, rfl, rfl, rfl, rfl⟩,
    (C2_accessors_address_own_slot baseNode 2 sampleConfigurationCache
      sampleMotionCache sampleDynamicsCache sampleReactionCache (by decide) (by decide)
      ⟨rfl, rfl, rfl, rfl, rfl, rfl, rfl, rfl⟩ ⟨rfl, rfl, rfl⟩
      ⟨rfl, rfl, rfl, rfl, rfl, rfl, rfl, rfl⟩ ⟨rfl, rfl, rfl⟩).2.2.1⟩

/-! ### C3 -/

/-- C3, as stated, fails: `getX_GP` of a node returns the slot of its parent. In
the two-node tree, with node numbers 0 and 1 both in range of the pools,
`getX_GP` of the base node returns the identity; after Ground stores `shiftX`
through its `updX_GB`, `getX_GP` of the base node returns `shiftX`. -/
theorem C3_updX_GB_changes_getX_GP_of_child :
    (groundNode.InRange 2 ∧ baseNode.InRange 2 ∧
      groundNode.getNodeNum ≠ baseNode.getNodeNum ∧ sampleConfigurationCache.Sized 2) ∧
    baseNode.getX_GP groundAndBase sampleConfigurationCache =
      Except.ok (some Transform.identity) ∧
    ∃ cc', groundNode.updX_GB sampleConfigurationCache shiftX = some cc' ∧
      baseNode.getX_GP groundAndBase cc' = Except.ok (some shiftX) ∧
      baseNode.getX_GP groundAndBase cc' ≠
        baseNode.getX_GP groundAndBase sampleConfigurationCache := by
  refine ⟨⟨⟨by decide, by decide⟩, ⟨by decide, by decide⟩, by decide,
    rfl, rfl, rfl, rfl, rfl, rfl, rfl, rfl⟩, rfl, _, rfl, rfl, ?_⟩
  intro e
  have e2 : some shiftX = some Transform.identity := Except.ok.inj e
  exact absurd e2 (by decide)

/-- C3, amended: for two nodes `a` and `b` with different node numbers, `a` in
range of the pools (length `k`), a store of any value through any `upd`
accessor of `a` returns a cache that is the old one with position `a.nodeNum`
of the one addressed pool replaced (every other pool and every other position
is unchanged), and on which every `get` accessor of `b` that reads the slot of
`b` itself returns what it returned before. The accessor `getX_GP` of `b`,
which reads the slot of the parent of `b` in `bodyConfigInGround`, returns
what it returned before after a store through any `upd` accessor other than
`updX_GB`, and after a store through `updX_GB` when the parent of `b` does not
have the node number of `a`; when it has, `getX_GP` of `b` returns the stored
value. -/
theorem C3_upd_leaves_other_nodes_alone {R : Type} (h : Heap R) (a b : RigidBodyNode R)
    (k : Nat) (cc : SBConfigurationCache R) (mc : SBMotionCache R) (dc : SBDynamicsCache R) (rc : SBReactionCache R)
    (h0 : 0 ≤ a.getNodeNum) (hk : a.getNodeNum < k) (hab : a.getNodeNum ≠ b.getNodeNum)
    (hcc : cc.Sized k) (hmc : mc.Sized k) (hdc : dc.Sized k) (hrc : rc.Sized k) :
    ((∀ v, ∃ cc', a.updX_JbJ cc v = some cc' ∧
      cc' = { cc with bodyJointInParentJointFrame := cc.bodyJointInParentJointFrame.set a.getNodeNum.toNat v } ∧ SameOwnConfigurationReads b cc cc') ∧
    (∀ v, ∃ cc', a.updX_PB cc v = some cc' ∧
      cc' = { cc with bodyConfigInParent := cc.bodyConfigInParent.set a.getNodeNum.toNat v } ∧ SameOwnConfigurationReads b cc cc') ∧
    (∀ v, ∃ cc', a.updX_GB cc v = some cc' ∧
      cc' = { cc with bodyConfigInGround := cc.bodyConfigInGround.set a.getNodeNum.toNat v } ∧ SameOwnConfigurationReads b cc cc') ∧
    (∀ v, ∃ cc', a.updPhi cc v = some cc' ∧
      cc' = { cc with bodyToParentShift := cc.bodyToParentShift.set a.getNodeNum.toNat v } ∧ SameOwnConfigurationReads b cc cc') ∧
    (∀ v, ∃ cc', a.updMk cc v = some cc' ∧
      cc' = { cc with bodySpatialInertia := cc.bodySpatialInertia.set a.getNodeNum.toNat v } ∧ SameOwnConfigurationReads b cc cc') ∧
    (∀ v, ∃ cc', a.updCOM_G cc v = some cc' ∧
      cc' = { cc with bodyCOMInGround := cc.bodyCOMInGround.set a.getNodeNum.toNat v } ∧ SameOwnConfigurationReads b cc cc') ∧
    (∀ v, ∃ cc', a.updCB_G cc v = some cc' ∧
      cc' = { cc with bodyCOMStationInGround := cc.bodyCOMStationInGround.set a.getNodeNum.toNat v } ∧ SameOwnConfigurationReads b cc cc') ∧
    (∀ v, ∃ cc', a.updInertia_OB_G cc v = some cc' ∧
      cc' = { cc with bodyInertiaInGround := cc.bodyInertiaInGround.set a.getNodeNum.toNat v } ∧ SameOwnConfigurationReads b cc cc') ∧
    (∀ v, ∃ mc', a.updV_JbJ mc v = some mc' ∧
      mc' = { mc with mobilizerRelativeVelocity := mc.mobilizerRelativeVelocity.set a.getNodeNum.toNat v } ∧ SameMotionReads b mc mc') ∧
    (∀ v, ∃ mc', a.updV_GB mc v = some mc' ∧
      mc' = { mc with bodyVelocityInGround := mc.bodyVelocityInGround.set a.getNodeNum.toNat v } ∧ SameMotionReads b mc mc') ∧
    (∀ v, ∃ mc', a.updV_PB_G mc v = some mc' ∧
      mc' = { mc with bodyVelocityInParent := mc.bodyVelocityInParent.set a.getNodeNum.toNat v } ∧ SameMotionReads b mc mc') ∧
    (∀ v, ∃ dc', a.updP dc v = some dc' ∧
      dc' = { dc with articulatedBodyInertia := dc.articulatedBodyInertia.set a.getNodeNum.toNat v } ∧ SameDynamicsReads b dc dc') ∧
    (∀ v, ∃ dc', a.updCoriolisAcceleration dc v = some dc' ∧
      dc' = { dc with coriolisAcceleration := dc.coriolisAcceleration.set a.getNodeNum.toNat v } ∧ SameDynamicsReads b dc dc') ∧
    (∀ v, ∃ dc', a.updGyroscopicForce dc v = some dc' ∧
      dc' = { dc with gyroscopicForces := dc.gyroscopicForces.set a.getNodeNum.toNat v } ∧ SameDynamicsReads b dc dc') ∧
    (∀ v, ∃ dc', a.updCentrifugalForces dc v = some dc' ∧
      dc' = { dc with centrifugalForces := dc.centrifugalForces.set a.getNodeNum.toNat v } ∧ SameDynamicsReads b dc dc') ∧
    (∀ v, ∃ dc', a.updPsi dc v = some dc' ∧
      dc' = { dc with psi := dc.psi.set a.getNodeNum.toNat v } ∧ SameDynamicsReads b dc dc') ∧
    (∀ v, ∃ dc', a.updTauBar dc v = some dc' ∧
      dc' = { dc with tauBar := dc.tauBar.set a.getNodeNum.toNat v } ∧ SameDynamicsReads b dc dc') ∧
    (∀ v, ∃ dc', a.updY dc v = some dc' ∧
      dc' = { dc with Y := dc.Y.set a.getNodeNum.toNat v } ∧ SameDynamicsReads b dc dc') ∧
    (∀ v, ∃ rc', a.updA_GB rc v = some rc' ∧
      rc' = { rc with bodyAccelerationInGround := rc.bodyAccelerationInGround.set a.getNodeNum.toNat v } ∧ SameReactionReads b rc rc') ∧
    (∀ v, ∃ rc', a.updZ rc v = some rc' ∧
      rc' = { rc with z := rc.z.set a.getNodeNum.toNat v } ∧ SameReactionReads b rc rc') ∧
    (∀ v, ∃ rc', a.updGepsilon rc v = some rc' ∧
      rc' = { rc with Gepsilon := rc.Gepsilon.set a.getNodeNum.toNat v } ∧ SameReactionReads b rc rc')) ∧
    ((∀ v cc', a.updX_JbJ cc v = some cc' → b.getX_GP h cc' = b.getX_GP h cc) ∧
    (∀ v cc', a.updX_PB cc v = some cc' → b.getX_GP h cc' = b.getX_GP h cc) ∧
    (∀ v cc', a.updPhi cc v = some cc' → b.getX_GP h cc' = b.getX_GP h cc) ∧
    (∀ v cc', a.updMk cc v = some cc' → b.getX_GP h cc' = b.getX_GP h cc) ∧
    (∀ v cc', a.updCOM_G cc v = some cc' → b.getX_GP h cc' = b.getX_GP h cc) ∧
    (∀ v cc', a.updCB_G cc v = some cc' → b.getX_GP h cc' = b.getX_GP h cc) ∧
    (∀ v cc', a.updInertia_OB_G cc v = some cc' → b.getX_GP h cc' = b.getX_GP h cc)) ∧
    (∀ v cc', a.updX_GB cc v = some cc' →
      ((∀ p pn, b.getParent = some p → h[p]? = some pn →
          pn.getNodeNum ≠ a.getNodeNum) →
        b.getX_GP h cc' = b.getX_GP h cc) ∧
      (∀ p pn, b.getParent = some p → h[p]? = some pn →
          pn.getNodeNum = a.getNodeNum →
        b.getX_GP h cc' = Except.ok (some v))) := by
  obtain ⟨c1, c2, c3, c4, c5, c6, c7, c8⟩ := hcc
  obtain ⟨m1, m2, m3⟩ := hmc
  obtain ⟨d1, d2, d3, d4, d5, d6, d7, d8⟩ := hdc
  obtain ⟨r1, r2, r3⟩ := hrc
  refine ⟨?_, ?_, ?_⟩
  · simp only [SameOwnConfigurationReads, SameMotionReads, SameDynamicsReads, SameReactionReads,
      RigidBodyNode.getX_JbJ, RigidBodyNode.updX_JbJ, RigidBodyNode.getX_PB, RigidBodyNode.updX_PB, RigidBodyNode.getX_GB, RigidBodyNode.updX_GB, RigidBodyNode.getPhi, RigidBodyNode.updPhi, RigidBodyNode.getMk, RigidBodyNode.updMk, RigidBodyNode.getCOM_G, RigidBodyNode.updCOM_G, RigidBodyNode.getCB_G, RigidBodyNode.updCB_G, RigidBodyNode.getInertia_OB_G, RigidBodyNode.updInertia_OB_G, RigidBodyNode.getSpatialVel, RigidBodyNode.getSpatialAngVel, RigidBodyNode.getSpatialLinVel, RigidBodyNode.getV_JbJ, RigidBodyNode.updV_JbJ, RigidBodyNode.getV_GB, RigidBodyNode.updV_GB, RigidBodyNode.getV_PB_G, RigidBodyNode.updV_PB_G, RigidBodyNode.getBodyForce, RigidBodyNode.getP, RigidBodyNode.updP, RigidBodyNode.getCoriolisAcceleration, RigidBodyNode.updCoriolisAcceleration, RigidBodyNode.getGyroscopicForce, RigidBodyNode.updGyroscopicForce, RigidBodyNode.getCentrifugalForces, RigidBodyNode.updCentrifugalForces, RigidBodyNode.getPsi, RigidBodyNode.updPsi, RigidBodyNode.getTauBar, RigidBodyNode.updTauBar, RigidBodyNode.getY, RigidBodyNode.updY, RigidBodyNode.getSpatialAcc, RigidBodyNode.getSpatialAngAcc, RigidBodyNode.getSpatialLinAcc, RigidBodyNode.getA_GB, RigidBodyNode.updA_GB, RigidBodyNode.getZ, RigidBodyNode.updZ, RigidBodyNode.getGepsilon, RigidBodyNode.updGepsilon]
    refine ⟨?_, ?_, ?_, ?_, ?_, ?_, ?_, ?_, ?_, ?_, ?_, ?_, ?_, ?_, ?_, ?_, ?_, ?_, ?_, ?_, ?_⟩
    all_goals
      intro v
      rw [a.toB_of_inRange _ v k h0 hk (by assumption)]
      refine ⟨_, rfl, rfl, ?_⟩
      simp only [a.fromB_set_other b _ v h0 hab, and_self]
  · simp only [RigidBodyNode.updX_JbJ, RigidBodyNode.updX_PB, RigidBodyNode.updPhi, RigidBodyNode.updMk, RigidBodyNode.updCOM_G, RigidBodyNode.updCB_G, RigidBodyNode.updInertia_OB_G]
    refine ⟨?_, ?_, ?_, ?_, ?_, ?_, ?_⟩
    all_goals
      intro v cc' hc
      rw [a.toB_of_inRange _ v k h0 hk (by assumption)] at hc
      simp only [Option.map_some', Option.some.injEq] at hc
      subst hc
      rfl
  · intro v cc' hc
    simp only [RigidBodyNode.updX_GB] at hc
    rw [a.toB_of_inRange _ v k h0 hk c3] at hc
    simp only [Option.map_some', Option.some.injEq] at hc
    subst hc
    constructor
    · intro hne
      cases hpar : b.parent with
      | none => simp only [RigidBodyNode.getX_GP, hpar]
      | some p =>
        cases hpn : h[p]? with
        | none => simp only [RigidBodyNode.getX_GP, hpar, hpn]
        | some pn =>
          simp only [RigidBodyNode.getX_GP, hpar, hpn, RigidBodyNode.getX_GB]
          rw [a.fromB_set_other pn _ v h0 (Ne.symm (hne p pn hpar hpn))]
    · intro p pn hp hpn he
      have hpar : b.parent = some p := hp
      simp only [RigidBodyNode.getX_GP, hpar, hpn, RigidBodyNode.getX_GB]
      rw [← he]
      rw [pn.fromB_set_self _ v k (by rw [he]; exact h0) (by rw [he]; exact hk) c3]

/-- Witness of C3 (amended): Ground (node number 0) stores through `updX_GB`
into the sample configuration cache; the accessors of the base node (node
number 1) that read its own slot return the same, and its `getX_GP` returns
the stored value. -/
theorem C3_upd_leaves_other_nodes_alone_witness :
    (0 ≤ groundNode.getNodeNum ∧ groundNode.getNodeNum < 2 ∧
      groundNode.getNodeNum ≠ baseNode.getNodeNum) ∧
    (∃ cc', groundNode.updX_GB sampleConfigurationCache shiftX = some cc' ∧
      cc' = { sampleConfigurationCache with
        bodyConfigInGround :=
          sampleConfigurationCache.bodyConfigInGround.set groundNode.getNodeNum.toNat shiftX } ∧
      SameOwnConfigurationReads baseNode sampleConfigurationCache cc') ∧
    (∀ cc', groundNode.updX_GB sampleConfigurationCache shiftX = some cc' →
      baseNode.getX_GP groundAndBase cc' = Except.ok (some shiftX)) :=
  have key := C3_upd_leaves_other_nodes_alone groundAndBase groundNode baseNode 2
    sampleConfigurationCache sampleMotionCache sampleDynamicsCache sampleReactionCache
    (by decide) (by decide) (by decide) ⟨rfl, rfl, rfl, rfl, rfl, rfl, rfl, rfl⟩
    ⟨rfl, rfl, rfl⟩ ⟨rfl, rfl, rfl, rfl, rfl, rfl, rfl, rfl⟩ ⟨rfl, rfl, rfl⟩
  ⟨⟨by decide, by decide, by decide⟩, key.1.2.2.1 shiftX,
    fun cc' hc => (key.2.2 shiftX cc' hc).2 0 groundNode rfl rfl rfl⟩

/-! ### C4 -/

/-- C4: each of the fourteen base-class bodies `calcZ`, `calcYOutward`,
`calcAccel`, `calcInternalGradientFromSpatial`, `calcEquivalentJointForces`,
`calcUDotPass1Inward`, `calcUDotPass2Outward`, `calcQDot`, `calcQDotDot`,
`setVelFromSVel`, `setQ`, `setU`, `getInternalForce` and `getHRow`, for all
arguments, ends with the exception `VirtualBaseMethod`, and every output
argument has after the call the value it had before. -/
theorem C4_base_methods_throw_and_write_nothing {R : Type} (n : RigidBodyNode R) :
    (∀ cc dc spatialForce rc, n.calcZ cc dc spatialForce rc =
      (Except.error VirtualBaseMethod.mk, rc)) ∧
    (∀ cc dc, n.calcYOutward cc dc =
      (Except.error VirtualBaseMethod.mk, dc)) ∧
    (∀ mv q cc u dc rc udot qdotdot, n.calcAccel mv q cc u dc rc udot qdotdot =
      (Except.error VirtualBaseMethod.mk, (rc, udot, qdotdot))) ∧
    (∀ cc zTmp X JX, n.calcInternalGradientFromSpatial cc zTmp X JX =
      (Except.error VirtualBaseMethod.mk, (zTmp, JX))) ∧
    (∀ cc dc bodyForces allZ allGepsilon jointForces, n.calcEquivalentJointForces cc dc bodyForces allZ allGepsilon jointForces =
      (Except.error VirtualBaseMethod.mk, (allZ, allGepsilon, jointForces))) ∧
    (∀ cc dc jointForces bodyForces allZ allGepsilon allEpsilon, n.calcUDotPass1Inward cc dc jointForces bodyForces allZ allGepsilon allEpsilon =
      (Except.error VirtualBaseMethod.mk, (allZ, allGepsilon, allEpsilon))) ∧
    (∀ cc dc epsilonTmp allA_GB allUDot, n.calcUDotPass2Outward cc dc epsilonTmp allA_GB allUDot =
      (Except.error VirtualBaseMethod.mk, (allA_GB, allUDot))) ∧
    (∀ mv q cc u qdot, n.calcQDot mv q cc u qdot =
      (Except.error VirtualBaseMethod.mk, qdot)) ∧
    (∀ mv q cc u udot qdotdot, n.calcQDotDot mv q cc u udot qdotdot =
      (Except.error VirtualBaseMethod.mk, qdotdot)) ∧
    (∀ cc mc sVel u, n.setVelFromSVel cc mc sVel u =
      (Except.error VirtualBaseMethod.mk, u)) ∧
    (∀ mv qIn q, n.setQ mv qIn q =
      (Except.error VirtualBaseMethod.mk, q)) ∧
    (∀ mv uIn u, n.setU mv uIn u =
      (Except.error VirtualBaseMethod.mk, u)) ∧
    (∀ rc tau, n.getInternalForce rc tau =
      (Except.error VirtualBaseMethod.mk, tau)) ∧
    (∀ cc i, n.getHRow cc i = Except.error VirtualBaseMethod.mk) := by
  refine ⟨?_, ?_, ?_, ?_, ?_, ?_, ?_, ?_, ?_, ?_, ?_, ?_, ?_, ?_⟩ <;> intros <;> rfl

/-! ### C5 -/

/-- C5, as stated, fails: on the base node the base-class
`setMobilizerVelocity` and `setMobilizerConfiguration` do not end with an
exception; they return normally. -/
theorem C5_mobilizer_setters_return_normally :
    (¬ ∃ e, (baseNode.setMobilizerVelocity sampleModelingVars spatialVecB [0]).1 =
      Except.error e) ∧
    (¬ ∃ e, (baseNode.setMobilizerConfiguration sampleModelingVars shiftX [0]).1 =
      Except.error e) := by
  constructor <;> (rintro ⟨e, he⟩; cases he)

/-- C5, amended: the base-class `setMobilizerConfiguration` and
`setMobilizerVelocity` return normally for all arguments and leave `q` and `u`
as they were (their bodies are empty); the base-class body that ends with the
exception `VirtualBaseMethod` on a request to set speeds from a spatial
velocity is `setVelFromSVel`, which also leaves `u` as it was. -/
theorem C5_mobilizer_setters_do_nothing {R : Type} (n : RigidBodyNode R) :
    (∀ mv X_JbJ q, n.setMobilizerConfiguration mv X_JbJ q = (Except.ok (), q)) ∧
    (∀ mv V_JbJ u, n.setMobilizerVelocity mv V_JbJ u = (Except.ok (), u)) ∧
    (∀ cc mc sVel u, n.setVelFromSVel cc mc sVel u =
      (Except.error VirtualBaseMethod.mk, u)) :=
  ⟨fun _ _ _ => rfl, fun _ _ _ => rfl, fun _ _ _ _ => rfl⟩

/-! ### C6 -/

section FactoryLemmas
variable {R : Type} {J : Type} [CommRing R]

theorem createAll_qRanges (dofOf nqOf : J → Nat) (ci : MassProperties R → InertiaMat R)
    (reqs : List (CreateArgs R J)) (u s q : Int) :
    q ≤ (createAll dofOf nqOf ci reqs u s q).2.2.2 ∧
    (∀ x ∈ (createAll dofOf nqOf ci reqs u s q).1, ∀ k, x.InQRange k →
      q ≤ k ∧ k < (createAll dofOf nqOf ci reqs u s q).2.2.2) ∧
    (createAll dofOf nqOf ci reqs u s q).1.Pairwise
      (fun x y => ∀ k, ¬ (x.InQRange k ∧ y.InQRange k)) ∧
    (∀ k, q ≤ k → k < (createAll dofOf nqOf ci reqs u s q).2.2.2 →
      ∃ x ∈ (createAll dofOf nqOf ci reqs u s q).1, x.InQRange k) := by
  induction reqs generalizing u s q with
  | nil =>
    refine ⟨le_refl _, ?_, List.Pairwise.nil, ?_⟩
    · intro x hx
      cases hx
    · intro k h1 h2
      simp only [createAll] at h2
      omega
  | cons r rs ih =>
    obtain ⟨ih1, ih2, ih3, ih4⟩ := ih (u + (dofOf r.type : Int))
      (s + (dofOf r.type : Int) * (dofOf r.type : Int)) (q + (nqOf r.type : Int))
    simp only [createAll, create] at ih1 ih2 ih3 ih4 ⊢
    refine ⟨by omega, ?_, ?_, ?_⟩
    · intro x hx k hk
      rcases List.mem_cons.mp hx with rfl | hx
      · simp only [ConcreteNode.InQRange, RigidBodyNode.getQIndex,
          ConcreteNode.getMaxNQ] at hk
        omega
      · have := ih2 x hx k hk
        omega
    · refine List.pairwise_cons.mpr ⟨?_, ih3⟩
      intro y hy k hk
      have h1 := ih2 y hy k hk.2
      have h2 := hk.1
      simp only [ConcreteNode.InQRange, RigidBodyNode.getQIndex,
        ConcreteNode.getMaxNQ] at h2
      omega
    · intro k hk1 hk2
      by_cases hlt : k < q + (nqOf r.type : Int)
      · refine ⟨_, List.mem_cons_self _ _, ?_⟩
        simp only [ConcreteNode.InQRange, RigidBodyNode.getQIndex, ConcreteNode.getMaxNQ]
        omega
      · obtain ⟨x, hx, hxk⟩ := ih4 k (by omega) hk2
        exact ⟨x, List.mem_cons_of_mem _ hx, hxk⟩

theorem createAll_uRanges (dofOf nqOf : J → Nat) (ci : MassProperties R → InertiaMat R)
    (reqs : List (CreateArgs R J)) (u s q : Int) :
    u ≤ (createAll dofOf nqOf ci reqs u s q).2.1 ∧
    (∀ x ∈ (createAll dofOf nqOf ci reqs u s q).1, ∀ k, x.InURange k →
      u ≤ k ∧ k < (createAll dofOf nqOf ci reqs u s q).2.1) ∧
    (createAll dofOf nqOf ci reqs u s q).1.Pairwise
      (fun x y => ∀ k, ¬ (x.InURange k ∧ y.InURange k)) ∧
    (∀ k, u ≤ k → k < (createAll dofOf nqOf ci reqs u s q).2.1 →
      ∃ x ∈ (createAll dofOf nqOf ci reqs u s q).1, x.InURange k) := by
  induction reqs generalizing u s q with
  | nil =>
    refine ⟨le_refl _, ?_, List.Pairwise.nil, ?_⟩
    · intro x hx
      cases hx
    · intro k h1 h2
      simp only [createAll] at h2
      omega
  | cons r rs ih =>
    obtain ⟨ih1, ih2, ih3, ih4⟩ := ih (u + (dofOf r.type : Int))
      (s + (dofOf r.type : Int) * (dofOf r.type : Int)) (q + (nqOf r.type : Int))
    simp only [createAll, create] at ih1 ih2 ih3 ih4 ⊢
    refine ⟨by omega, ?_, ?_, ?_⟩
    · intro x hx k hk
      rcases List.mem_cons.mp hx with rfl | hx
      · simp only [ConcreteNode.InURange, RigidBodyNode.getUIndex,
          ConcreteNode.getDOF] at hk
        omega
      · have := ih2 x hx k hk
        omega
    · refine List.pairwise_cons.mpr ⟨?_, ih3⟩
      intro y hy k hk
      have h1 := ih2 y hy k hk.2
      have h2 := hk.1
      simp only [ConcreteNode.InURange, RigidBodyNode.getUIndex,
        ConcreteNode.getDOF] at h2
      omega
    · intro k hk1 hk2
      by_cases hlt : k < u + (dofOf r.type : Int)
      · refine ⟨_, List.mem_cons_self _ _, ?_⟩
        simp only [ConcreteNode.InURange, RigidBodyNode.getUIndex, ConcreteNode.getDOF]
        omega
      · obtain ⟨x, hx, hxk⟩ := ih4 k (by omega) hk2
        exact ⟨x, List.mem_cons_of_mem _ hx, hxk⟩

end FactoryLemmas

/-- C6: for every sequence of calls of the factory that threads the counters
from 0, the coordinate ranges `[getQIndex(), getQIndex() + coordinate count)`
of the created nodes are pairwise disjoint and a position lies in one of them
exactly when it lies in `[0, final nxtQ)`; likewise the speed ranges
`[getUIndex(), getUIndex() + getDOF())` and `[0, final nxtU)`. -/
theorem C6_create_partitions_index_ranges {R : Type} {J : Type} [CommRing R]
    (degreesOfFreedom numCoordinates : J → Nat)
    (calcCentroidalInertia : MassProperties R → InertiaMat R)
    (reqs : List (CreateArgs R J)) :
    (createAll degreesOfFreedom numCoordinates calcCentroidalInertia reqs 0 0 0).1.Pairwise
      (fun x y => ∀ k, ¬ (x.InQRange k ∧ y.InQRange k)) ∧
    (∀ k, (0 ≤ k ∧
        k < (createAll degreesOfFreedom numCoordinates calcCentroidalInertia reqs 0 0 0).2.2.2) ↔
      ∃ x ∈ (createAll degreesOfFreedom numCoordinates calcCentroidalInertia reqs 0 0 0).1,
        x.InQRange k) ∧
    (createAll degreesOfFreedom numCoordinates calcCentroidalInertia reqs 0 0 0).1.Pairwise
      (fun x y => ∀ k, ¬ (x.InURange k ∧ y.InURange k)) ∧
    (∀ k, (0 ≤ k ∧
        k < (createAll degreesOfFreedom numCoordinates calcCentroidalInertia reqs 0 0 0).2.1) ↔
      ∃ x ∈ (createAll degreesOfFreedom numCoordinates calcCentroidalInertia reqs 0 0 0).1,
        x.InURange k) := by
  obtain ⟨_, q2, q3, q4⟩ :=
    createAll_qRanges degreesOfFreedom numCoordinates calcCentroidalInertia reqs 0 0 0
  obtain ⟨_, u2, u3, u4⟩ :=
    createAll_uRanges degreesOfFreedom numCoordinates calcCentroidalInertia reqs 0 0 0
  refine ⟨q3, fun k => ⟨fun hk => q4 k hk.1 hk.2, ?_⟩, u3, fun k => ⟨fun hk => u4 k hk.1 hk.2, ?_⟩⟩
  · rintro ⟨x, hx, hk⟩
    exact q2 x hx k hk
  · rintro ⟨x, hx, hk⟩
    exact u2 x hx k hk

/-! ### C7 and C8 -/

section TransformLemmas
variable {R : Type} [CommRing R]

theorem Mat33.toMatrix_mul (a b : Mat33 R) : (a.mul b).toMatrix = a.toMatrix * b.toMatrix := by
  ext i j
  fin_cases i <;> fin_cases j <;>
    simp [Mat33.toMatrix, Mat33.mul, Matrix.mul_apply, Fin.sum_univ_three]

theorem Mat33.toMatrix_one : (Mat33.one : Mat33 R).toMatrix = 1 := by
  ext i j
  fin_cases i <;> fin_cases j <;>
    simp [Mat33.toMatrix, Mat33.one, Matrix.vecHead, Matrix.vecTail]

omit [CommRing R] in
theorem Mat33.toMatrix_injective {a b : Mat33 R} (h : a.toMatrix = b.toMatrix) : a = b := by
  have e := fun i j => congrFun (congrFun h i) j
  ext
  · simpa [Mat33.toMatrix] using e 0 0
  · simpa [Mat33.toMatrix] using e 0 1
  · simpa [Mat33.toMatrix] using e 0 2
  · simpa [Mat33.toMatrix] using e 1 0
  · simpa [Mat33.toMatrix] using e 1 1
  · simpa [Mat33.toMatrix] using e 1 2
  · simpa [Mat33.toMatrix] using e 2 0
  · simpa [Mat33.toMatrix] using e 2 1
  · simpa [Mat33.toMatrix] using e 2 2

/-- A right inverse of a 3x3 matrix over a commutative ring is a left inverse. -/
theorem Mat33.mul_eq_one_comm {a b : Mat33 R} (h : a.mul b = Mat33.one) :
    b.mul a = Mat33.one := by
  apply Mat33.toMatrix_injective
  rw [Mat33.toMatrix_mul, Mat33.toMatrix_one]
  apply Matrix.mul_eq_one_comm.mp
  rw [← Mat33.toMatrix_mul, h, Mat33.toMatrix_one]

theorem Mat33.mul_one (a : Mat33 R) : a.mul Mat33.one = a := by
  ext <;> simp [Mat33.mul, Mat33.one]

theorem Mat33.mulVec_zero (a : Mat33 R) : a.mulVec Vec3.zero = Vec3.zero := by
  ext <;> simp [Mat33.mulVec, Vec3.zero]

theorem Mat33.one_mulVec (v : Vec3 R) : Mat33.one.mulVec v = v := by
  ext <;> simp [Mat33.mulVec, Mat33.one]

theorem Mat33.mulVec_mulVec (a b : Mat33 R) (v : Vec3 R) :
    a.mulVec (b.mulVec v) = (a.mul b).mulVec v := by
  ext <;> simp only [Mat33.mulVec, Mat33.mul] <;> ring

theorem Mat33.mulVec_neg (a : Mat33 R) (v : Vec3 R) : a.mulVec v.neg = (a.mulVec v).neg := by
  ext <;> simp only [Mat33.mulVec, Vec3.neg] <;> ring

theorem Vec3.add_zero (v : Vec3 R) : v.add Vec3.zero = v := by
  ext <;> simp [Vec3.add, Vec3.zero]

theorem Vec3.add_neg (v : Vec3 R) : v.add v.neg = Vec3.zero := by
  ext <;> simp [Vec3.add, Vec3.neg, Vec3.zero]

theorem Vec3.neg_add (v : Vec3 R) : v.neg.add v = Vec3.zero := by
  ext <;> simp [Vec3.add, Vec3.neg, Vec3.zero]

theorem Transform.compose_identity (a : Transform R) : a.compose Transform.identity = a := by
  simp only [Transform.compose, Transform.identity, Mat33.mul_one, Mat33.mulVec_zero,
    Vec3.add_zero]

theorem Transform.compose_invert {a : Transform R} (h : a.R.IsOrthogonal) :
    a.compose a.invert = Transform.identity := by
  have h1 : a.R.mul a.R.transpose = Mat33.one := h
  simp only [Transform.compose, Transform.invert, Transform.identity, Mat33.mulVec_neg,
    Mat33.mulVec_mulVec, h1, Mat33.one_mulVec, Vec3.add_neg]

theorem Transform.invert_compose {a : Transform R} (h : a.R.IsOrthogonal) :
    a.invert.compose a = Transform.identity := by
  have h2 : a.R.transpose.mul a.R = Mat33.one := Mat33.mul_eq_one_comm h
  simp only [Transform.compose, Transform.invert, Transform.identity, h2, Vec3.neg_add]

end TransformLemmas

/-- C7: for a node constructed from joint frames `X_PJb` and `X_BJ`, the
reference configuration `getRefX_PB()` is `X_PJb` composed with the inverse of
`X_BJ`, which is `getX_PJb() * getX_JB()`, and it is the body-in-parent
transform `X_PJb * X_JbJ * X_JB` at the identity across-joint transform. -/
theorem C7_reference_configuration {R : Type} [CommRing R]
    (calcCentroidalInertia : MassProperties R → InertiaMat R)
    (m : MassProperties R) (X_PJb X_BJ : Transform R) :
    (RigidBodyNode.construct calcCentroidalInertia m X_PJb X_BJ).getRefX_PB =
      X_PJb.compose X_BJ.invert ∧
    (RigidBodyNode.construct calcCentroidalInertia m X_PJb X_BJ).getRefX_PB =
      (RigidBodyNode.construct calcCentroidalInertia m X_PJb X_BJ).getX_PJb.compose
        (RigidBodyNode.construct calcCentroidalInertia m X_PJb X_BJ).getX_JB ∧
    (RigidBodyNode.construct calcCentroidalInertia m X_PJb X_BJ).getRefX_PB =
      (RigidBodyNode.construct calcCentroidalInertia m X_PJb X_BJ).calcX_PB
        Transform.identity := by
  refine ⟨rfl, rfl, ?_⟩
  simp only [RigidBodyNode.calcX_PB, Transform.compose_identity]
  rfl

/-- C8: for a node constructed from a joint frame `X_BJ` whose rotation is
orthogonal, the stored `getX_JB()` is the inverse of `getX_BJ()`: both
compositions are the identity transform, the rotation of `getX_JB()` is the
transpose of the rotation of `X_BJ`, and its translation is minus that
transpose applied to the translation of `X_BJ`. -/
theorem C8_X_JB_is_inverse_of_X_BJ {R : Type} [CommRing R]
    (calcCentroidalInertia : MassProperties R → InertiaMat R)
    (m : MassProperties R) (X_PJb X_BJ : Transform R) (horth : X_BJ.R.IsOrthogonal) :
    (RigidBodyNode.construct calcCentroidalInertia m X_PJb X_BJ).getX_BJ.compose
      (RigidBodyNode.construct calcCentroidalInertia m X_PJb X_BJ).getX_JB =
        Transform.identity ∧
    (RigidBodyNode.construct calcCentroidalInertia m X_PJb X_BJ).getX_JB.compose
      (RigidBodyNode.construct calcCentroidalInertia m X_PJb X_BJ).getX_BJ =
        Transform.identity ∧
    (RigidBodyNode.construct calcCentroidalInertia m X_PJb X_BJ).getX_JB.R =
      X_BJ.R.transpose ∧
    (RigidBodyNode.construct calcCentroidalInertia m X_PJb X_BJ).getX_JB.T =
      (X_BJ.R.transpose.mulVec X_BJ.T).neg :=
  ⟨Transform.compose_invert horth, Transform.invert_compose horth, rfl, rfl⟩

/-- Witness of C8: the quarter turn about z with translation (1, 2, 3). -/
theorem C8_X_JB_is_inverse_of_X_BJ_witness :
    quarterTurn.R.IsOrthogonal ∧
    (RigidBodyNode.construct (fun m => m.inertia) unitMass shiftX quarterTurn).getX_JB =
      ⟨⟨0, 1, 0, -1, 0, 0, 0, 0, 1⟩, ⟨-2, 1, -3⟩⟩ ∧
    (RigidBodyNode.construct (fun m => m.inertia) unitMass shiftX quarterTurn).getX_JB.compose
      (RigidBodyNode.construct (fun m => m.inertia) unitMass shiftX quarterTurn).getX_BJ =
        Transform.identity :=
  ⟨by decide, by decide,
    (C8_X_JB_is_inverse_of_X_BJ (fun m => m.inertia) unitMass shiftX quarterTurn
      (by decide)).2.1⟩

/-! ### C9 -/

/-- C9: a node constructed with mass properties `m` and joint frames `X_PJb`,
`X_BJ` returns `m`, the mass, center of mass and inertia of `m`, `X_BJ` and
`X_PJb` from `getMassProperties()`, `getMass()`, `getCOM_B()`,
`getInertia_OB_B()`, `getX_BJ()` and `getX_PJb()`; and on every node each of
`setParent`, `setNodeNum`, `setLevel` and `addChild` leaves the value of these
accessors and of `getInertia_CB_B()`, `getX_JB()`, `getRefX_PB()` as it was. -/
theorem C9_body_constants_fixed {R : Type} [CommRing R]
    (calcCentroidalInertia : MassProperties R → InertiaMat R)
    (m : MassProperties R) (X_PJb X_BJ : Transform R) :
    (RigidBodyNode.construct calcCentroidalInertia m X_PJb X_BJ).getMassProperties = m ∧
    (RigidBodyNode.construct calcCentroidalInertia m X_PJb X_BJ).getMass = m.getMass ∧
    (RigidBodyNode.construct calcCentroidalInertia m X_PJb X_BJ).getCOM_B = m.getCOM ∧
    (RigidBodyNode.construct calcCentroidalInertia m X_PJb X_BJ).getInertia_OB_B =
      m.getInertia ∧
    (RigidBodyNode.construct calcCentroidalInertia m X_PJb X_BJ).getX_BJ = X_BJ ∧
    (RigidBodyNode.construct calcCentroidalInertia m X_PJb X_BJ).getX_PJb = X_PJb ∧
    ∀ n : RigidBodyNode R,
      (∀ p, SameBodyConstants n (n.setParent p)) ∧
      (∀ k, SameBodyConstants n (n.setNodeNum k)) ∧
      (∀ i, SameBodyConstants n (n.setLevel i)) ∧
      (∀ c, SameBodyConstants n (n.addChild c)) := by
  refine ⟨rfl, rfl, rfl, rfl, rfl, rfl, fun n => ⟨?_, ?_, ?_, ?_⟩⟩ <;> intro _ <;>
    exact ⟨rfl, rfl, rfl, rfl, rfl, rfl, rfl, rfl, rfl⟩

/-! ### C10 -/

section ChildrenLemmas
variable {R : Type}

theorem RigidBodyNode.getChild_of_inRange (n : RigidBodyNode R) (i : Int) (h0 : 0 ≤ i)
    (hi : i < n.getNChildren) :
    ∃ x, n.children[i.toNat]? = some x ∧ x ∈ n.children ∧ n.getChild i = some x := by
  simp only [RigidBodyNode.getNChildren] at hi
  have hlt : i.toNat < n.children.length := by omega
  refine ⟨n.children[i.toNat], List.getElem?_eq_getElem hlt, List.getElem_mem hlt, ?_⟩
  simp [RigidBodyNode.getChild, hi, h0, List.getElem?_eq_getElem hlt]

theorem ChildrenInvariant.of_pointBack {h : Heap R} (hpb : ChildrenPointBack h) :
    ChildrenInvariant h := by
  constructor
  · intro a n hn i h0 hi
    obtain ⟨x, _, hmem, hget⟩ := n.getChild_of_inRange i h0 hi
    obtain ⟨c, cn, hx, hc, hp⟩ := hpb a n hn x hmem
    exact ⟨c, cn, by rw [hget, hx], hc, hp⟩
  · intro a b na nb c ha hb hca hcb
    obtain ⟨k, kn, hk, hkn, hpa⟩ := hpb a na ha c hca
    obtain ⟨k', kn', hk', hkn', hpb'⟩ := hpb b nb hb c hcb
    rw [hk] at hk'
    cases hk'
    rw [hkn] at hkn'
    cases hkn'
    rw [hpa] at hpb'
    exact Option.some.inj hpb'

theorem ChildrenInvariant.pointBack {h : Heap R} (hinv : ChildrenInvariant h) :
    ChildrenPointBack h := by
  intro a n hn x hx
  obtain ⟨j, hj, hjx⟩ := List.getElem_of_mem hx
  have h0 : (0 : Int) ≤ (j : Int) := Int.ofNat_nonneg j
  have hi : (j : Int) < n.getNChildren := by
    simp only [RigidBodyNode.getNChildren]
    omega
  obtain ⟨c, cn, hget, hc, hp⟩ := hinv.1 a n hn j h0 hi
  obtain ⟨y, hy, _, hget'⟩ := n.getChild_of_inRange j h0 hi
  rw [hget'] at hget
  simp only [Int.toNat_ofNat, List.getElem?_eq_getElem hj, hjx, Option.some.injEq] at hy
  rw [← hy] at hget
  exact ⟨c, cn, Option.some.inj hget, hc, hp⟩

/-- A call on the object at `a` that keeps its children list and its parent
keeps the child relation of the store. -/
theorem ChildrenPointBack.of_child_keeping_call {h h' : Heap R} {a : Nat}
    {f : RigidBodyNode R → RigidBodyNode R} (hc : h.call a f = some h')
    (hch : ∀ m, (f m).children = m.children) (hpar : ∀ m, (f m).getParent = m.getParent)
    (hpb : ChildrenPointBack h) : ChildrenPointBack h' := by
  intro b m' hm' x hx
  rw [Heap.call_lookup hc b] at hm'
  obtain ⟨m, hm, rfl⟩ := Option.map_eq_some'.mp hm'
  have hx' : x ∈ m.children := by
    split at hx
    · rwa [hch] at hx
    · exact hx
  obtain ⟨c, cn, hxc, hcn, hp⟩ := hpb b m hm x hx'
  refine ⟨c, _, hxc, by rw [Heap.call_lookup hc c, hcn]; rfl, ?_⟩
  split
  · rw [hpar]
    exact hp
  · exact hp

theorem ChildrenPointBack.of_link {h h' : Heap R} {p c : Nat} (hl : h.link p c = some h')
    (hc : c < h.length) (hun : IsUnregistered h c) (hpb : ChildrenPointBack h) :
    ChildrenPointBack h' := by
  unfold Heap.link at hl
  obtain ⟨h1, hadd, hset⟩ := Option.bind_eq_some.mp hl
  have look : ∀ b, h'[b]? = (h[b]?).map (fun m =>
      if b = c then (if b = p then m.addChild (some c) else m).setParent (some p)
      else (if b = p then m.addChild (some c) else m)) := by
    intro b
    rw [Heap.call_lookup hset b, Heap.call_lookup hadd b]
    cases h[b]? <;> rfl
  have hcget : h[c]? = some h[c] := List.getElem?_eq_getElem hc
  have hlc : ∃ cn', h'[c]? = some cn' ∧ cn'.getParent = some p := by
    rw [look c, hcget]
    exact ⟨_, rfl, by simp [RigidBodyNode.getParent, RigidBodyNode.setParent]⟩
  intro b m' hm' x hx
  rw [look b] at hm'
  obtain ⟨m, hm, rfl⟩ := Option.map_eq_some'.mp hm'
  have hx' : x ∈ m.children ∨ (b = p ∧ x = some c) := by
    split_ifs at hx with h1 h2 h2
    · simp only [RigidBodyNode.setParent, RigidBodyNode.addChild, List.mem_append,
        List.mem_singleton] at hx
      exact hx.imp id (fun e => ⟨h2, e⟩)
    · exact Or.inl hx
    · simp only [RigidBodyNode.addChild, List.mem_append, List.mem_singleton] at hx
      exact hx.imp id (fun e => ⟨h2, e⟩)
    · exact Or.inl hx
  rcases hx' with hx' | ⟨hbp, hxc⟩
  · obtain ⟨k, kn, hxk, hkn, hp⟩ := hpb b m hm x hx'
    have hkc : k ≠ c := by
      intro e
      apply hun b m hm
      rw [← e, ← hxk]
      exact hx'
    refine ⟨k, _, hxk, by rw [look k, hkn]; rfl, ?_⟩
    simp only [hkc, if_false]
    split
    · exact hp
    · exact hp
  · obtain ⟨cn', hcn', hpar⟩ := hlc
    exact ⟨c, cn', hxc, hcn', by rw [hpar, hbp]⟩

end ChildrenLemmas

theorem groundBaseAndFresh_pointBack : ChildrenPointBack groundBaseAndFresh := by
  intro a n hn x hx
  match a, hn with
  | 0, hn =>
    simp only [groundBaseAndFresh, List.getElem?_cons_zero, Option.some.injEq] at hn
    subst hn
    have hx1 : x = some 1 := by
      simpa [groundNode, freshNode, RigidBodyNode.construct, RigidBodyNode.addChild,
        RigidBodyNode.setNodeNum, RigidBodyNode.setLevel] using hx
    exact ⟨1, baseNode, hx1, rfl, rfl⟩
  | 1, hn =>
    simp only [groundBaseAndFresh, List.getElem?_cons_succ, List.getElem?_cons_zero,
      Option.some.injEq] at hn
    subst hn
    exact absurd hx (List.not_mem_nil x)
  | 2, hn =>
    simp only [groundBaseAndFresh, List.getElem?_cons_succ, List.getElem?_cons_zero,
      Option.some.injEq] at hn
    subst hn
    exact absurd hx (List.not_mem_nil x)
  | k + 3, hn => simp [groundBaseAndFresh] at hn

theorem groundBaseAndFresh_unregistered : IsUnregistered groundBaseAndFresh 2 := by
  intro a n hn
  match a, hn with
  | 0, hn =>
    simp only [groundBaseAndFresh, List.getElem?_cons_zero, Option.some.injEq] at hn
    subst hn
    decide
  | 1, hn =>
    simp only [groundBaseAndFresh, List.getElem?_cons_succ, List.getElem?_cons_zero,
      Option.some.injEq] at hn
    subst hn
    decide
  | 2, hn =>
    simp only [groundBaseAndFresh, List.getElem?_cons_succ, List.getElem?_cons_zero,
      Option.some.injEq] at hn
    subst hn
    decide
  | k + 3, hn => simp [groundBaseAndFresh] at hn

/-- C10, as stated, fails: in the three-node store (Ground, its base node and
an unlinked node) the child relation holds; after `setParent(0)` on the base
node, child 0 of Ground is a node whose parent is not Ground; and after
`addChild` of the base node on the unlinked node, the base node is in the
children lists of two different nodes. -/
theorem C10_interface_breaks_child_relation :
    ChildrenInvariant groundBaseAndFresh ∧
    (∃ h', groundBaseAndFresh.setParent 1 none = some h' ∧ ¬ ChildrenInvariant h') ∧
    (∃ h', groundBaseAndFresh.addChild 2 (some 1) = some h' ∧ ¬ ChildrenInvariant h') := by
  refine ⟨ChildrenInvariant.of_pointBack groundBaseAndFresh_pointBack,
    ⟨_, rfl, ?_⟩, ⟨_, rfl, ?_⟩⟩
  · intro hinv
    obtain ⟨c, cn, hget, hcn, hp⟩ := hinv.1 0 groundNode rfl 0 (le_refl _) (by decide)
    have hc : c = 1 := by
      have e : groundNode.getChild 0 = some (some 1) := by decide
      rw [e] at hget
      exact (Option.some.inj (Option.some.inj hget)).symm
    subst hc
    cases hcn
    exact absurd hp (by decide)
  · intro hinv
    have e := hinv.2 0 2 groundNode (freshNode.addChild (some 1)) (some 1) rfl rfl
      (by decide) (by decide)
    exact absurd e (by decide)

/-- C10, amended: the interface does not keep the child relation by itself
(`addChild` and `setParent` are independent stores), but the relation (child
`i` of a node, for `0 <= i < getNChildren()`, is a node whose parent is that
node, and no pointer is in two children lists) is preserved by `setNodeNum`
and `setLevel` on any node for all arguments, and by the pair of calls
`p->addChild(c); c->setParent(p)` whenever `c` is a node that is in no
children list. Each of these calls returns. -/
theorem C10_child_relation_preserved {R : Type} (h : Heap R)
    (hinv : ChildrenInvariant h) :
    (∀ a k, a < h.length → ∃ h', h.setNodeNum a k = some h' ∧ ChildrenInvariant h') ∧
    (∀ a i, a < h.length → ∃ h', h.setLevel a i = some h' ∧ ChildrenInvariant h') ∧
    (∀ p c, p < h.length → c < h.length → IsUnregistered h c →
      ∃ h', h.link p c = some h' ∧ ChildrenInvariant h') := by
  have hpb := hinv.pointBack
  refine ⟨?_, ?_, ?_⟩
  · intro a k ha
    obtain ⟨h', hc, _⟩ := h.call_of_lt ha (fun n => n.setNodeNum k)
    exact ⟨h', hc, ChildrenInvariant.of_pointBack
      (ChildrenPointBack.of_child_keeping_call hc (fun _ => rfl) (fun _ => rfl) hpb)⟩
  · intro a i ha
    obtain ⟨h', hc, _⟩ := h.call_of_lt ha (fun n => n.setLevel i)
    exact ⟨h', hc, ChildrenInvariant.of_pointBack
      (ChildrenPointBack.of_child_keeping_call hc (fun _ => rfl) (fun _ => rfl) hpb)⟩
  · intro p c hp hc hun
    obtain ⟨h1, hadd, hlen⟩ := h.call_of_lt hp (fun n => n.addChild (some c))
    obtain ⟨h2, hset, _⟩ := h1.call_of_lt (hlen ▸ hc) (fun n => n.setParent (some p))
    have hl : h.link p c = some h2 := by
      unfold Heap.link Heap.addChild
      rw [hadd]
      exact hset
    exact ⟨h2, hl, ChildrenInvariant.of_pointBack (ChildrenPointBack.of_link hl hc hun hpb)⟩

/-- Witness of C10 (amended): the unlinked node at address 2 is linked under
the base node at address 1. -/
theorem C10_child_relation_preserved_witness :
    ChildrenInvariant groundBaseAndFresh ∧ IsUnregistered groundBaseAndFresh 2 ∧
    ∃ h', groundBaseAndFresh.link 1 2 = some h' ∧ ChildrenInvariant h' :=
  ⟨ChildrenInvariant.of_pointBack groundBaseAndFresh_pointBack,
    groundBaseAndFresh_unregistered,
    (C10_child_relation_preserved groundBaseAndFresh
      (ChildrenInvariant.of_pointBack groundBaseAndFresh_pointBack)).2.2 1 2
      (by decide) (by decide) groundBaseAndFresh_unregistered⟩

/-! ### C11 -/

/-- C11: for every node `n` with `k = n.getNChildren()` children and every
pointer `c`, after `n.addChild(c)` the node has `k + 1` children, `getChild(k)`
is `c`, and `getChild(i)` is what it was for every `0 <= i < k`. -/
theorem C11_addChild_appends_in_order {R : Type} (n : RigidBodyNode R) (c : Ptr) :
    (n.addChild c).getNChildren = n.getNChildren + 1 ∧
    (n.addChild c).getChild n.getNChildren = some c ∧
    ∀ i : Int, 0 ≤ i → i < n.getNChildren → (n.addChild c).getChild i = n.getChild i := by
  refine ⟨?_, ?_, ?_⟩
  · simp [RigidBodyNode.getNChildren, RigidBodyNode.addChild]
  · simp [RigidBodyNode.getNChildren, RigidBodyNode.addChild, RigidBodyNode.getChild]
  · intro i h0 hi
    simp only [RigidBodyNode.getNChildren] at hi
    have hlt : i.toNat < n.children.length := by omega
    have hi' : i < ((n.children ++ [c]).length : Int) := by
      simp only [List.length_append, List.length_singleton]
      omega
    simp only [RigidBodyNode.getChild, RigidBodyNode.addChild, hi, hi', h0, if_true]
    exact List.getElem?_append_left hlt

/-- Witness of C11: a second child is registered on Ground; child 0 is the one
registered first. -/
theorem C11_addChild_appends_in_order_witness :
    (0 : Int) < groundNode.getNChildren ∧
    (groundNode.addChild (some 2)).getChild 0 = groundNode.getChild 0 ∧
    (groundNode.addChild (some 2)).getChild 1 = some (some 2) :=
  ⟨by decide,
    (C11_addChild_appends_in_order groundNode (some 2)).2.2 0 (le_refl _) (by decide),
    (C11_addChild_appends_in_order groundNode (some 2)).2.1⟩

/-! ### C13 -/

/-- C13: each of the seven base-class bodies `setDefaultModelingValues`,
`setDefaultParameterValues`, `setDefaultTimeValues`,
`setDefaultConfigurationValues`, `setDefaultMotionValues`,
`setDefaultDynamicsValues` and `setDefaultReactionValues` returns normally, for
all arguments, and the variables passed by reference (in particular `q` and
`u`) have after the call the value they had before. -/
theorem C13_setDefault_hooks_do_nothing {R : Type} (n : RigidBodyNode R)
    (ConstructionCache ParameterVars TimeVars DynamicsVars ReactionVars : Type) :
    (∀ (c : ConstructionCache) (mv : SBModelingVars),
      n.setDefaultModelingValues c mv = (Except.ok (), mv)) ∧
    (∀ (mv : SBModelingVars) (pv : ParameterVars),
      n.setDefaultParameterValues mv pv = (Except.ok (), pv)) ∧
    (∀ (mv : SBModelingVars) (tv : TimeVars),
      n.setDefaultTimeValues mv tv = (Except.ok (), tv)) ∧
    (∀ (mv : SBModelingVars) (q : List R),
      n.setDefaultConfigurationValues mv q = (Except.ok (), q)) ∧
    (∀ (mv : SBModelingVars) (u : List R),
      n.setDefaultMotionValues mv u = (Except.ok (), u)) ∧
    (∀ (mv : SBModelingVars) (dv : DynamicsVars),
      n.setDefaultDynamicsValues mv dv = (Except.ok (), dv)) ∧
    (∀ (mv : SBModelingVars) (rv : ReactionVars),
      n.setDefaultReactionValues mv rv = (Except.ok (), rv)) :=
  ⟨fun _ _ => rfl, fun _ _ => rfl, fun _ _ => rfl, fun _ _ => rfl, fun _ _ => rfl,
    fun _ _ => rfl, fun _ _ => rfl⟩

/-! ### C16 -/

/-- C16, on the code: `getChild` tests only `i < size`. On Ground (one child)
`getChild(-1)` passes the test and evaluates `children[-1]`, outside the list;
`getChild(0)` is the registered child and `getChild(1)` is the null pointer. -/
theorem C16_getChild_negative_index_reads_outside :
    groundNode.getChild (-1) = none ∧
    groundNode.getChild 0 = some (some 1) ∧
    groundNode.getChild 1 = some none := by
  refine ⟨?_, ?_, ?_⟩ <;> decide

/-! ### C17 -/

section RangeLemmas
variable {R : Type} {α : Type}

end RangeLemmas

section NodeNumLemmas
variable {R : Type}

/-- A call on the object at `x` that keeps its node number keeps the node
numbers of the store distinct. -/
theorem NodeNumsUnique.of_number_keeping_call {h h' : Heap R} {x : Nat}
    {f : RigidBodyNode R → RigidBodyNode R} (hc : h.call x f = some h')
    (hf : ∀ m, (f m).getNodeNum = m.getNodeNum) (hu : NodeNumsUnique h) :
    NodeNumsUnique h' := by
  intro a b na nb ha hb hab
  rw [Heap.call_lookup hc a] at ha
  rw [Heap.call_lookup hc b] at hb
  obtain ⟨ma, hma, rfl⟩ := Option.map_eq_some'.mp ha
  obtain ⟨mb, hmb, rfl⟩ := Option.map_eq_some'.mp hb
  apply hu a b ma mb hma hmb
  have ea : (if a = x then f ma else ma).getNodeNum = ma.getNodeNum := by
    split
    · exact hf ma
    · rfl
  have eb : (if b = x then f mb else mb).getNodeNum = mb.getNodeNum := by
    split
    · exact hf mb
    · rfl
  rw [← ea, ← eb]
  exact hab

theorem NodeNumsUnique.of_setNodeNum_free {h h' : Heap R} {x : Nat} {k : Int}
    (hc : h.setNodeNum x k = some h') (hfree : NodeNumFree h x k)
    (hu : NodeNumsUnique h) : NodeNumsUnique h' := by
  intro a b na nb ha hb hab
  rw [Heap.call_lookup hc a] at ha
  rw [Heap.call_lookup hc b] at hb
  obtain ⟨ma, hma, rfl⟩ := Option.map_eq_some'.mp ha
  obtain ⟨mb, hmb, rfl⟩ := Option.map_eq_some'.mp hb
  by_cases hax : a = x
  · by_cases hbx : b = x
    · rw [hax, hbx]
    · simp only [hax, hbx, if_true, if_false] at hab
      exact absurd hab.symm (hfree b mb hmb hbx)
  · by_cases hbx : b = x
    · simp only [hax, hbx, if_true, if_false] at hab
      exact absurd hab (hfree a ma hma hax)
    · simp only [hax, hbx, if_false] at hab
      exact hu a b ma mb hma hmb hab

end NodeNumLemmas

theorem groundAndBase_nodeNumsUnique : NodeNumsUnique groundAndBase := by
  intro a b na nb ha hb hab
  match a, b, ha, hb with
  | 0, 0, _, _ => rfl
  | 1, 1, _, _ => rfl
  | 0, 1, ha, hb =>
    simp only [groundAndBase, List.getElem?_cons_succ, List.getElem?_cons_zero,
      Option.some.injEq] at ha hb
    subst ha
    subst hb
    exact absurd hab (by decide)
  | 1, 0, ha, hb =>
    simp only [groundAndBase, List.getElem?_cons_succ, List.getElem?_cons_zero,
      Option.some.injEq] at ha hb
    subst ha
    subst hb
    exact absurd hab (by decide)
  | k + 2, _, ha, _ => simp [groundAndBase] at ha
  | 0, k + 2, _, hb => simp [groundAndBase] at hb
  | 1, k + 2, _, hb => simp [groundAndBase] at hb

theorem groundAndBase_nodeNumFree : NodeNumFree groundAndBase 1 7 := by
  intro b nb hb hne
  match b, hb with
  | 0, hb =>
    simp only [groundAndBase, List.getElem?_cons_zero, Option.some.injEq] at hb
    subst hb
    decide
  | 1, _ => exact absurd rfl hne
  | k + 2, hb => simp [groundAndBase] at hb

/-- C12, as stated, fails: in the two-node tree the node numbers 0 and 1 are
distinct, and the call `setNodeNum(0)` on the base node returns a store in
which Ground and the base node both have node number 0. -/
theorem C12_setNodeNum_can_duplicate :
    NodeNumsUnique groundAndBase ∧
    ∃ h', groundAndBase.setNodeNum 1 0 = some h' ∧ ¬ NodeNumsUnique h' := by
  refine ⟨groundAndBase_nodeNumsUnique, _, rfl, ?_⟩
  intro hu
  have e := hu 0 1 _ _ rfl rfl (by decide)
  exact absurd e (by decide)

/-- C12, amended: `setNodeNum` stores its argument unchecked, so node numbers
are unique only as far as the caller assigns distinct ones. In a store whose
node numbers are pairwise distinct they stay so after `setParent`, `setLevel`
and `addChild` on any node for all arguments, and after `setNodeNum(k)` on a
node when no other node has node number `k`. Each call returns. -/
theorem C12_nodeNum_uniqueness_preserved {R : Type} (h : Heap R) (a : Nat)
    (ha : a < h.length) (hu : NodeNumsUnique h) :
    (∀ p, ∃ h', h.setParent a p = some h' ∧ NodeNumsUnique h') ∧
    (∀ i, ∃ h', h.setLevel a i = some h' ∧ NodeNumsUnique h') ∧
    (∀ c, ∃ h', h.addChild a c = some h' ∧ NodeNumsUnique h') ∧
    (∀ k, NodeNumFree h a k → ∃ h', h.setNodeNum a k = some h' ∧ NodeNumsUnique h') := by
  refine ⟨?_, ?_, ?_, ?_⟩
  · intro p
    obtain ⟨h', hc, _⟩ := h.call_of_lt ha (fun n => n.setParent p)
    exact ⟨h', hc, NodeNumsUnique.of_number_keeping_call hc (fun _ => rfl) hu⟩
  · intro i
    obtain ⟨h', hc, _⟩ := h.call_of_lt ha (fun n => n.setLevel i)
    exact ⟨h', hc, NodeNumsUnique.of_number_keeping_call hc (fun _ => rfl) hu⟩
  · intro c
    obtain ⟨h', hc, _⟩ := h.call_of_lt ha (fun n => n.addChild c)
    exact ⟨h', hc, NodeNumsUnique.of_number_keeping_call hc (fun _ => rfl) hu⟩
  · intro k hfree
    obtain ⟨h', hc, _⟩ := h.call_of_lt ha (fun n => n.setNodeNum k)
    exact ⟨h', hc, NodeNumsUnique.of_setNodeNum_free hc hfree hu⟩

/-- Witness of C12 (amended): the base node of the two-node tree is renumbered
to 7, a number no other node has. -/
theorem C12_nodeNum_uniqueness_preserved_witness :
    NodeNumsUnique groundAndBase ∧ NodeNumFree groundAndBase 1 7 ∧
    ∃ h', groundAndBase.setNodeNum 1 7 = some h' ∧ NodeNumsUnique h' :=
  ⟨groundAndBase_nodeNumsUnique, groundAndBase_nodeNumFree,
    (C12_nodeNum_uniqueness_preserved groundAndBase 1 (by decide)
      groundAndBase_nodeNumsUnique).2.2.2 7 groundAndBase_nodeNumFree⟩

/-! ### C18 -/

/-- C18: with the assertion compiled in, `getX_GP(cc)` of a node that has a
parent passes the assertion and returns the parent's `getX_GB(cc)`, which is
position `nodeNum` of the parent in `cc.bodyConfigInGround` when that is in
range; on a node with no parent (Ground, or any node as the constructor leaves
it) the assertion fails; so `getX_GP` passes its assertion exactly on the
nodes that have a parent. -/
theorem C18_getX_GP_reads_parent {R : Type} [CommRing R] (h : Heap R)
    (n : RigidBodyNode R) (cc : SBConfigurationCache R) :
    (∀ p pn, n.getParent = some p → h[p]? = some pn →
      n.getX_GP h cc = Except.ok (pn.getX_GB cc) ∧
      (pn.InRange cc.bodyConfigInGround.length →
        ∃ e, cc.bodyConfigInGround[pn.getNodeNum.toNat]? = some e ∧
          n.getX_GP h cc = Except.ok (some e))) ∧
    (n.getParent = none → n.getX_GP h cc = Except.error AssertionFailed.mk) ∧
    ((∃ v, n.getX_GP h cc = Except.ok v) ↔ ∃ p, n.getParent = some p) ∧
    (∀ (calcCentroidalInertia : MassProperties R → InertiaMat R) (m : MassProperties R)
        (X_PJb X_BJ : Transform R),
      (RigidBodyNode.construct calcCentroidalInertia m X_PJb X_BJ).getX_GP h cc =
        Except.error AssertionFailed.mk) := by
  refine ⟨?_, ?_, ?_, fun _ _ _ _ => rfl⟩
  · intro p pn hp hpn
    have hp' : n.parent = some p := hp
    have e1 : n.getX_GP h cc = Except.ok (pn.getX_GB cc) := by
      simp only [RigidBodyNode.getX_GP, hp', hpn]
    refine ⟨e1, ?_⟩
    intro hr
    obtain ⟨e, he, hget⟩ := pn.fromB_of_inRange cc.bodyConfigInGround _ hr.1 hr.2 rfl
    exact ⟨e, he, by rw [e1]; exact congrArg Except.ok hget⟩
  · intro hp
    have hp' : n.parent = none := hp
    simp only [RigidBodyNode.getX_GP, hp']
  · constructor
    · rintro ⟨v, hv⟩
      cases hpar : n.parent with
      | none =>
        simp only [RigidBodyNode.getX_GP, hpar] at hv
        cases hv
      | some p => exact ⟨p, hpar⟩
    · rintro ⟨p, hp⟩
      have hp' : n.parent = some p := hp
      cases hpn : h[p]? with
      | none => exact ⟨none, by simp only [RigidBodyNode.getX_GP, hp', hpn]⟩
      | some pn => exact ⟨pn.getX_GB cc, by simp only [RigidBodyNode.getX_GP, hp', hpn]⟩

/-- Witness of C18: the base node of the two-node tree, whose parent is Ground
(node number 0), reads position 0 of `bodyConfigInGround`. -/
theorem C18_getX_GP_reads_parent_witness :
    baseNode.getParent = some 0 ∧ groundNode.InRange 2 ∧
    baseNode.getX_GP groundAndBase sampleConfigurationCache =
      Except.ok (groundNode.getX_GB sampleConfigurationCache) ∧
    ∃ e, sampleConfigurationCache.bodyConfigInGround[groundNode.getNodeNum.toNat]? = some e ∧
      baseNode.getX_GP groundAndBase sampleConfigurationCache = Except.ok (some e) :=
  ⟨rfl, ⟨by decide, by decide⟩,
    ((C18_getX_GP_reads_parent groundAndBase baseNode sampleConfigurationCache).1
      0 groundNode rfl rfl).1,
    ((C18_getX_GP_reads_parent groundAndBase baseNode sampleConfigurationCache).1
      0 groundNode rfl rfl).2 ⟨by decide, by decide⟩⟩

/-! ### C14 and C15 -/

section ChainLemmas
variable {R : Type}

theorem levels_bounded_below (l : List (RigidBodyNode R)) :
    ∃ m : Int, ∀ n ∈ l, m ≤ n.getLevel := by
  induction l with
  | nil => exact ⟨0, fun n hn => absurd hn (List.not_mem_nil n)⟩
  | cons x xs ih =>
    obtain ⟨m, hm⟩ := ih
    refine ⟨min m x.getLevel, ?_⟩
    intro n hn
    rcases List.mem_cons.mp hn with rfl | hn
    · exact min_le_right _ _
    · exact le_trans (min_le_left _ _) (hm n hn)

theorem RigidBodyNode.level_of_isGroundNode {n : RigidBodyNode R}
    (hg : n.isGroundNode = true) : n.getLevel = 0 := by
  simpa [RigidBodyNode.isGroundNode, RigidBodyNode.getLevel] using hg

theorem GroundOnlyParentless.level_of_parentless {h : Heap R} {g : Nat}
    (hg : GroundOnlyParentless h g) {a : Nat} {n : RigidBodyNode R}
    (hn : h[a]? = some n) (hp : n.getParent = none) : a = g ∧ n.getLevel = 0 := by
  obtain ⟨⟨gn, hgn, hgr, _⟩, honly⟩ := hg
  have hag := honly a n hn hp
  subst hag
  rw [hn] at hgn
  cases hgn
  exact ⟨rfl, RigidBodyNode.level_of_isGroundNode hgr⟩

theorem ParentLevelRelation.descend {h : Heap R} {g : Nat} (hrel : ParentLevelRelation h)
    (hg : GroundOnlyParentless h g) {a : Nat} {n : RigidBodyNode R}
    (hn : h[a]? = some n) (hneg : n.getLevel < 0) (k : Nat) :
    ∃ (b : Nat) (bn : RigidBodyNode R), h[b]? = some bn ∧
      bn.getLevel = n.getLevel - (k : Int) := by
  induction k with
  | zero => exact ⟨a, n, hn, by simp⟩
  | succ k ih =>
    obtain ⟨b, bn, hb, hl⟩ := ih
    cases hp : bn.getParent with
    | none =>
      have := (hg.level_of_parentless hb hp).2
      omega
    | some p =>
      obtain ⟨pn, hpn, hrl⟩ := hrel b bn hb p hp
      exact ⟨p, pn, hpn, by push_cast; omega⟩

theorem ParentLevelRelation.level_nonneg {h : Heap R} {g : Nat}
    (hrel : ParentLevelRelation h) (hg : GroundOnlyParentless h g) {a : Nat}
    {n : RigidBodyNode R} (hn : h[a]? = some n) : 0 ≤ n.getLevel := by
  by_contra hneg
  obtain ⟨m, hm⟩ := levels_bounded_below h
  obtain ⟨b, bn, hb, hl⟩ := hrel.descend hg hn (not_le.mp hneg) (n.getLevel - m + 1).toNat
  have h1 := hm bn (List.getElem?_mem hb)
  have h2 := hm n (List.getElem?_mem hn)
  omega

/-- The chain of parents of a node of level `k`: `j <= k` steps lead to a node
of level `k - j`, `k` steps lead to Ground, and more than `k` steps cannot be
made. -/
theorem ParentLevelRelation.chain {h : Heap R} {g : Nat} (hrel : ParentLevelRelation h)
    (hg : GroundOnlyParentless h g) (k : Nat) :
    ∀ (a : Nat) (n : RigidBodyNode R), h[a]? = some n → n.getLevel = (k : Int) →
      (∀ j, j ≤ k → ∃ (b : Nat) (bn : RigidBodyNode R), h.ancestor j a = some b ∧
        h[b]? = some bn ∧
        bn.getLevel = (k : Int) - (j : Int)) ∧
      (∀ j, k < j → h.ancestor j a = none) ∧
      h.ancestor k a = some g := by
  induction k with
  | zero =>
    intro a n hn hl
    cases hp : n.getParent with
    | some p =>
      obtain ⟨pn, hpn, hrl⟩ := hrel a n hn p hp
      have := hrel.level_nonneg hg hpn
      omega
    | none =>
      have hag := (hg.level_of_parentless hn hp).1
      refine ⟨?_, ?_, ?_⟩
      · intro j hj
        have hj0 : j = 0 := by omega
        subst hj0
        exact ⟨a, n, rfl, hn, by simp [hl]⟩
      · intro j hj
        obtain ⟨j', rfl⟩ : ∃ j', j = j' + 1 := ⟨j - 1, by omega⟩
        simp only [Heap.ancestor, hn, hp]
      · simp only [Heap.ancestor, hag]
  | succ k ih =>
    intro a n hn hl
    cases hp : n.getParent with
    | none =>
      have := (hg.level_of_parentless hn hp).2
      push_cast at hl
      omega
    | some p =>
      obtain ⟨pn, hpn, hrl⟩ := hrel a n hn p hp
      have hpl : pn.getLevel = (k : Int) := by
        push_cast at hl
        omega
      obtain ⟨ih1, ih2, ih3⟩ := ih p pn hpn hpl
      refine ⟨?_, ?_, ?_⟩
      · intro j hj
        cases j with
        | zero => exact ⟨a, n, rfl, hn, by simp [hl]⟩
        | succ j' =>
          obtain ⟨b, bn, hb, hbn, hbl⟩ := ih1 j' (by omega)
          refine ⟨b, bn, ?_, hbn, by push_cast; omega⟩
          simp only [Heap.ancestor, hn, hp]
          exact hb
      · intro j hj
        obtain ⟨j', rfl⟩ : ∃ j', j = j' + 1 := ⟨j - 1, by omega⟩
        simp only [Heap.ancestor, hn, hp]
        exact ih2 j' (by omega)
      · simp only [Heap.ancestor, hn, hp]
        exact ih3

end ChainLemmas

theorem threeLevels_parentLevelRelation : ParentLevelRelation threeLevels := by
  intro a n hn p hp
  match a, hn with
  | 0, hn =>
    simp only [threeLevels, List.getElem?_cons_zero, Option.some.injEq] at hn
    subst hn
    cases hp
  | 1, hn =>
    simp only [threeLevels, List.getElem?_cons_succ, List.getElem?_cons_zero,
      Option.some.injEq] at hn
    subst hn
    cases hp
    exact ⟨groundNode, rfl, by decide⟩
  | 2, hn =>
    simp only [threeLevels, List.getElem?_cons_succ, List.getElem?_cons_zero,
      Option.some.injEq] at hn
    subst hn
    cases hp
    exact ⟨baseNode.addChild (some 2), rfl, by decide⟩
  | k + 3, hn => simp [threeLevels] at hn

theorem threeLevels_groundOnlyParentless : GroundOnlyParentless threeLevels 0 := by
  refine ⟨⟨groundNode, rfl, by decide, by decide⟩, ?_⟩
  intro a n hn hp
  match a, hn with
  | 0, _ => rfl
  | 1, hn =>
    simp only [threeLevels, List.getElem?_cons_succ, List.getElem?_cons_zero,
      Option.some.injEq] at hn
    subst hn
    cases hp
  | 2, hn =>
    simp only [threeLevels, List.getElem?_cons_succ, List.getElem?_cons_zero,
      Option.some.injEq] at hn
    subst hn
    cases hp
  | k + 3, hn => simp [threeLevels] at hn

theorem threeLevels_groundOnlyLevelZero : GroundOnlyLevelZero threeLevels 0 := by
  refine ⟨⟨groundNode, rfl, by decide⟩, ?_⟩
  intro a n hn hz
  match a, hn with
  | 0, _ => rfl
  | 1, hn =>
    simp only [threeLevels, List.getElem?_cons_succ, List.getElem?_cons_zero,
      Option.some.injEq] at hn
    subst hn
    exact absurd hz (by decide)
  | 2, hn =>
    simp only [threeLevels, List.getElem?_cons_succ, List.getElem?_cons_zero,
      Option.some.injEq] at hn
    subst hn
    exact absurd hz (by decide)
  | k + 3, hn => simp [threeLevels] at hn

/-- C14: in a store where the relation `getLevel() = getParent()->getLevel() + 1`
holds at each node that has a parent and Ground (level 0, address `g`) is the
only node without a parent, every node `n` has a level that is not negative,
following `getParent()` exactly `n.getLevel()` times from `n` arrives at Ground,
fewer steps arrive at a node that is not Ground, no further step can be made
from Ground (the chain of parents ends), and no positive number of steps
returns to `n` (the parent relation has no cycle). -/
theorem C14_parent_chain_reaches_ground {R : Type} (h : Heap R) (g : Nat)
    (hrel : ParentLevelRelation h) (hg : GroundOnlyParentless h g)
    (a : Nat) (n : RigidBodyNode R) (hn : h[a]? = some n) :
    0 ≤ n.getLevel ∧
    h.ancestor n.getLevel.toNat a = some g ∧
    (∀ j, j < n.getLevel.toNat → ∃ b, h.ancestor j a = some b ∧ b ≠ g) ∧
    (∀ j, n.getLevel.toNat < j → h.ancestor j a = none) ∧
    (∀ j, 0 < j → h.ancestor j a ≠ some a) := by
  have h0 := hrel.level_nonneg hg hn
  have hl : n.getLevel = (n.getLevel.toNat : Int) := (Int.toNat_of_nonneg h0).symm
  obtain ⟨c1, c2, c3⟩ := hrel.chain hg n.getLevel.toNat a n hn hl
  obtain ⟨⟨gn, hgn, hgr, _⟩, _⟩ := hg
  have hgl := RigidBodyNode.level_of_isGroundNode hgr
  refine ⟨h0, c3, ?_, c2, ?_⟩
  · intro j hj
    obtain ⟨b, bn, hb, hbn, hbl⟩ := c1 j (le_of_lt hj)
    refine ⟨b, hb, ?_⟩
    intro e
    subst e
    rw [hgn] at hbn
    cases hbn
    omega
  · intro j hj e
    by_cases hjk : j ≤ n.getLevel.toNat
    · obtain ⟨b, bn, hb, hbn, hbl⟩ := c1 j hjk
      rw [e] at hb
      cases hb
      rw [hn] at hbn
      cases hbn
      omega
    · rw [c2 j (not_le.mp hjk)] at e
      cases e

/-- Witness of C14: in the chain Ground, base node, second-level node, two
steps from the node at address 2 arrive at Ground and a third step cannot be
made. -/
theorem C14_parent_chain_reaches_ground_witness :
    ParentLevelRelation threeLevels ∧ GroundOnlyParentless threeLevels 0 ∧
    secondLevelNode.getLevel = 2 ∧
    threeLevels.ancestor secondLevelNode.getLevel.toNat 2 = some 0 ∧
    (∀ j, secondLevelNode.getLevel.toNat < j → threeLevels.ancestor j 2 = none) :=
  have key := C14_parent_chain_reaches_ground threeLevels 0 threeLevels_parentLevelRelation
    threeLevels_groundOnlyParentless 2 secondLevelNode rfl
  ⟨threeLevels_parentLevelRelation, threeLevels_groundOnlyParentless, rfl, key.2.1,
    key.2.2.2.1⟩

/-- C15: in a store where the level relation holds at each node that has a
parent, Ground (address `g`) is the only node without a parent and the only
node of level 0, `isBaseNode()` is true of a node exactly when the node has a
parent and `getParent()->isGroundNode()` is true, that is, exactly when its
parent is Ground; and `isGroundNode()` and `isBaseNode()` are never both true
of one node. -/
theorem C15_isBaseNode_iff_attached_to_ground {R : Type} (h : Heap R) (g : Nat)
    (hrel : ParentLevelRelation h) (hg : GroundOnlyParentless h g)
    (hz : GroundOnlyLevelZero h g)
    (a : Nat) (n : RigidBodyNode R) (hn : h[a]? = some n) :
    (n.isBaseNode = true ↔
      ∃ p pn, n.getParent = some p ∧ h[p]? = some pn ∧ pn.isGroundNode = true) ∧
    (n.isBaseNode = true ↔ n.getParent = some g) ∧
    ¬ (n.isGroundNode = true ∧ n.isBaseNode = true) := by
  have hbase : n.isBaseNode = true ↔ n.getLevel = 1 := by
    simp [RigidBodyNode.isBaseNode, RigidBodyNode.getLevel]
  have hground : ∀ m : RigidBodyNode R, m.isGroundNode = true ↔ m.getLevel = 0 := by
    intro m
    simp [RigidBodyNode.isGroundNode, RigidBodyNode.getLevel]
  have first : n.isBaseNode = true ↔
      ∃ p pn, n.getParent = some p ∧ h[p]? = some pn ∧ pn.isGroundNode = true := by
    rw [hbase]
    constructor
    · intro hl
      cases hp : n.getParent with
      | none =>
        have := (hg.level_of_parentless hn hp).2
        omega
      | some p =>
        obtain ⟨pn, hpn, hrl⟩ := hrel a n hn p hp
        exact ⟨p, pn, rfl, hpn, (hground pn).mpr (by omega)⟩
    · rintro ⟨p, pn, hp, hpn, hpg⟩
      obtain ⟨pn', hpn', hrl⟩ := hrel a n hn p hp
      rw [hpn] at hpn'
      cases hpn'
      have := (hground pn).mp hpg
      omega
  refine ⟨first, ?_, ?_⟩
  · rw [first]
    constructor
    · rintro ⟨p, pn, hp, hpn, hpg⟩
      rw [hp, hz.2 p pn hpn hpg]
    · intro hp
      obtain ⟨gn, hgn, hgr⟩ := hz.1
      exact ⟨g, gn, hp, hgn, hgr⟩
  · rintro ⟨h1, h2⟩
    have e1 := (hground n).mp h1
    have e2 := hbase.mp h2
    omega

/-- Witness of C15: in the chain Ground, base node, second-level node, the
node at address 1 is a base node and its parent is Ground. -/
theorem C15_isBaseNode_iff_attached_to_ground_witness :
    GroundOnlyLevelZero threeLevels 0 ∧
    ((baseNode.addChild (some 2)).isBaseNode = true ↔
      (baseNode.addChild (some 2)).getParent = some 0) ∧
    (secondLevelNode.isBaseNode = true ↔ secondLevelNode.getParent = some 0) :=
  ⟨threeLevels_groundOnlyLevelZero,
    (C15_isBaseNode_iff_attached_to_ground threeLevels 0 threeLevels_parentLevelRelation
      threeLevels_groundOnlyParentless threeLevels_groundOnlyLevelZero 1 _ rfl).2.1,
    (C15_isBaseNode_iff_attached_to_ground threeLevels 0 threeLevels_parentLevelRelation
      threeLevels_groundOnlyParentless threeLevels_groundOnlyLevelZero 2 _ rfl).2.1⟩

end Simbody
